import Mathlib

/-!
# TemperatureSensorHandler: a shallow embedding

The C++ class `TemperatureSensorHandler` (files `TemperatureSensorHandler.h` and
`TemperatureSensorHandler.cpp`) is embedded as a record of its member variables and
one Lean function per member function.

Modelling conventions.

* `unsigned long` (32 bit on the target) is `Nat`; every subtraction of two
  time stamps is taken modulo `2^32` (`u32sub`).
* `int` is `Int`; where the code compares an `unsigned long` with an `int`, the
  `int` operand is converted to `unsigned long` first (`toU32`), as C++ does.
* `float` and `double` values are rationals; the sensor values are finite.
  Assignments, conversions from `float` to `double` and comparisons are exact.
  Every arithmetic operation on temperatures and rates is rounded as IEEE 754
  prescribes, to the nearest value of its format with ties to even (`round32` for
  the `float` subtraction of `CheckErrors` and for the narrowing of the aggregate
  to the `float` member `ChangeRate`, `round64` for the `double` operations of
  `CalculateMovingAverage`).  A result that can be infinite or NaN is a value of
  `Dbl`.  The two zeros are not distinguished.
* `millis()` is the argument `now`: one clock value per call of a member
  function (the clock does not advance while one call runs).
* The values the sensor drivers would return are arguments (`tempC`), and the
  calls that reach the outside (driver calls, log lines, the callback) are
  returned as a list of `Event`s, in program order.
* The function-local `static` variables of `CalculateMovingAverage` are fields
  of the record.
-/

/-- The enum `SensorType`. -/
inductive SensorType
  | DALLAS
  | TSIC_306
  deriving DecidableEq, Repr

/-- Values of a `float` or `double` computation: a rational, or one of the three
special results of IEEE arithmetic. -/
inductive Dbl
  | fin (q : ℚ)
  | pinf
  | ninf
  | nan
  deriving DecidableEq, Repr

/-- The C function `fabs`, on exact values. -/
def fabs (x : ℚ) : ℚ :=
  if x < 0 then -x else x

/-- Number of halvings that bring `n` below 2, with `fuel` as a bound. -/
def log2Fuel : Nat → Nat → Nat
  | 0, _ => 0
  | fuel + 1, n => if n < 2 then 0 else log2Fuel fuel (n / 2) + 1

/-- The integer part of the binary logarithm of a natural number. -/
def natLog2 (n : Nat) : Nat := log2Fuel n n

/-- The binary exponent of a positive rational `x`: the `e` with
`2^e <= x < 2^(e+1)`. -/
def ilog2 (x : ℚ) : Int :=
  let e0 : Int := (natLog2 x.num.natAbs : Int) - (natLog2 x.den : Int)
  if (2 : ℚ) ^ e0 ≤ x then e0 else e0 - 1

/-- The integer nearest to `y`, the even one of the two when `y` lies halfway. -/
def roundHalfEven (y : ℚ) : Int :=
  let f := Rat.floor y
  let r := y - (f : ℚ)
  if r < 1 / 2 then f
  else if 1 / 2 < r then f + 1
  else if f % 2 = 0 then f else f + 1

/-- IEEE 754 rounding to nearest, ties to even, into the binary format with `p`
significand bits and exponents from `emin` to `emax`: the magnitude is rounded to a
multiple of the unit of its binade (of the binade of `emin` for subnormal
magnitudes), and a rounded magnitude of `2^(emax+1)` or more is an infinity. -/
def roundTo (p : Nat) (emin emax : Int) (x : ℚ) : Dbl :=
  if x = 0 then Dbl.fin 0
  else
    let a := fabs x
    let e := max (ilog2 a) emin
    let q := (2 : ℚ) ^ (e - ((p : Int) - 1))
    let m := (roundHalfEven (a / q) : ℚ) * q
    if (2 : ℚ) ^ (emax + 1) ≤ m then (if x < 0 then Dbl.ninf else Dbl.pinf)
    else Dbl.fin (if x < 0 then -m else m)

/-- Rounding to `float` (binary32). -/
def round32 (x : ℚ) : Dbl := roundTo 24 (-126) 127 x

/-- Rounding to `double` (binary64). -/
def round64 (x : ℚ) : Dbl := roundTo 53 (-1022) 1023 x

/-- The `float` subtraction `a - b` of two finite `float` values. -/
def f32sub (a b : ℚ) : Dbl := round32 (a - b)

namespace Dbl

/-- The `double` subtraction `a - b` of two finite `double` values. -/
def sub (a b : ℚ) : Dbl := round64 (a - b)

/-- The `double` addition. -/
def add : Dbl → Dbl → Dbl
  | fin a, fin b => round64 (a + b)
  | nan, _ => nan
  | _, nan => nan
  | pinf, ninf => nan
  | ninf, pinf => nan
  | pinf, _ => pinf
  | _, pinf => pinf
  | ninf, _ => ninf
  | _, ninf => ninf

/-- The `double` multiplication by a finite, strictly positive constant (`k` is
`10000` or `100`). -/
def mulPos (x : Dbl) (k : ℚ) : Dbl :=
  match x with
  | fin a => round64 (a * k)
  | y => y

/-- The `double` division by a finite, strictly positive constant (`k` is `15`). -/
def divPos (x : Dbl) (k : ℚ) : Dbl :=
  match x with
  | fin a => round64 (a / k)
  | y => y

/-- The `double` division by an `unsigned long` converted to `double`: `0/0` is
NaN, `x/0` is an infinity with the sign of `x`, an infinity stays one. -/
def divNat (x : Dbl) (den : Nat) : Dbl :=
  match x with
  | fin num =>
    if den = 0 then
      (if num = 0 then nan else if 0 < num then pinf else ninf)
    else round64 (num / (den : ℚ))
  | y => y

/-- The conversion of a `double` to `float`. -/
def toFloat (x : Dbl) : Dbl :=
  match x with
  | fin a => round32 a
  | y => y

/-- The C function `fabs` on a value that can be infinite or NaN. -/
def abs (x : Dbl) : Dbl :=
  match x with
  | fin a => fin (fabs a)
  | pinf => pinf
  | ninf => pinf
  | nan => nan

/-- The comparison `x > m` with a finite `m`; it is false for NaN. -/
def gt (x : Dbl) (m : ℚ) : Bool :=
  match x with
  | fin a => decide (a > m)
  | pinf => true
  | ninf => false
  | nan => false

end Dbl

/-- Subtraction of two `unsigned long` values: the result is taken modulo `2^32`. -/
def u32sub (a b : Nat) : Nat :=
  (((a : Int) - (b : Int)) % 4294967296).toNat

/-- Conversion of an `int` to `unsigned long`. -/
def toU32 (i : Int) : Nat :=
  (i % 4294967296).toNat

/-- The test `millis() - stamp > threshold` with `stamp` an `unsigned long` and
`threshold` an `int`: the comparison is made in `unsigned long`. -/
def elapsedExceeds (now stamp : Nat) (threshold : Int) : Bool :=
  decide (toU32 threshold < u32sub now stamp)

/-- The text that `CheckErrors` writes into `logMessage`. -/
inductive ErrorMessage
  | outOfLimits (val min max : ℚ)
  | tooBigDeviation (val : Dbl) (lim : ℚ)
  | invalidValue
  | noSensorFound
  deriving DecidableEq, Repr

/-- A line written with `debugPrintln`. -/
inductive LogLine
  | first
  | message (m : Option ErrorMessage)
  | malfunction
  deriving DecidableEq, Repr

/-- What one call does to the outside, in program order. -/
inductive Event
  | log (l : LogLine)
  | callback (temp : ℚ) (rate : Dbl) (error : Bool)
  | requestTemperatures
  | getTempCByIndex
  | getTemp
  deriving DecidableEq, Repr

/-- The member variables of the class, followed by the `static` locals of
`CalculateMovingAverage`. -/
structure TemperatureSensorHandler where
  SensorInErrorState : Bool
  Temperature : ℚ
  ChangeRate : Dbl
  _sensorType : SensorType
  _previousTemperature : ℚ
  _uLim : ℚ
  _lLim : ℚ
  _maxDeviationBetweenReadings : ℚ
  _previousRequestMillis : Nat
  _errorStateDetectedMillis : Nat
  _errorLogLastWritten : Nat
  _gpio : Int
  _waitTime : Int
  _errorLogInterval : Int
  _maxErrorActiveTime : Int
  _dataRequested : Bool
  _sensorAvailable : Bool
  _tempAvailable : Bool
  _sensorBadReading : Bool
  _errorActive : Bool
  _newData : Bool
  tempValues : List ℚ
  timeValues : List Nat
  tempChangeRates : List Dbl
  valueIndex : Int
  movingAverageInitialized : Bool
  deriving DecidableEq, Repr

/-- The constant `numValues` of `CalculateMovingAverage`. -/
def numValues : Int := 15

/-- The constructor `TemperatureSensorHandler::TemperatureSensorHandler`.  It
assigns five members; the other members and the `static` locals have the values
of static storage (zero, `false`, the first enumerator), and `valueIndex` has its
initializer `1`. -/
def TemperatureSensorHandler.ctor : TemperatureSensorHandler where
  SensorInErrorState := false
  Temperature := 0
  ChangeRate := Dbl.fin 0
  _sensorType := SensorType.DALLAS
  _previousTemperature := 0
  _uLim := 150
  _lLim := 0
  _maxDeviationBetweenReadings := 5
  _previousRequestMillis := 0
  _errorStateDetectedMillis := 0
  _errorLogLastWritten := 0
  _gpio := 0
  _waitTime := 0
  _errorLogInterval := 1000
  _maxErrorActiveTime := 5000
  _dataRequested := false
  _sensorAvailable := false
  _tempAvailable := false
  _sensorBadReading := false
  _errorActive := false
  _newData := false
  tempValues := List.replicate 15 0
  timeValues := List.replicate 15 0
  tempChangeRates := List.replicate 15 (Dbl.fin 0)
  valueIndex := 1
  movingAverageInitialized := false

/-- `CheckNumOfDevicesOnBus`, with the device count reported by the bus driver as
an argument (the two debug lines are not modelled). -/
def TemperatureSensorHandler.CheckNumOfDevicesOnBus (numberOfDevicesOnWire : Int) : Bool :=
  decide (numberOfDevicesOnWire > 0)

/-- `Init`.  The driver results are arguments: `convMillis` is
`millisToWaitForConversion(11)`, `deviceCount` is `getDeviceCount()` and
`zacBegin` is the result of `ZACwire::begin()`.  The product with `1.1` is
truncated to `int`. -/
def TemperatureSensorHandler.Init (s : TemperatureSensorHandler) (gpio : Int)
    (type : SensorType) (convMillis : Nat) (deviceCount : Int) (zacBegin : Bool) :
    TemperatureSensorHandler :=
  let s0 := { s with _gpio := gpio, _sensorType := type }
  let s1 :=
    if s0._sensorType = SensorType.DALLAS then
      { s0 with
        _waitTime := ((convMillis * 11 / 10 : Nat) : Int)
        _sensorAvailable := TemperatureSensorHandler.CheckNumOfDevicesOnBus deviceCount }
    else s0
  if s1._sensorType = SensorType.TSIC_306 then
    { s1 with _waitTime := 400, _sensorAvailable := zacBegin }
  else s1

/-- The second `if` of `ReadTemperatureSensorDallas`: issue a request when none is
pending.  `evs` are the events of the call so far. -/
def TemperatureSensorHandler.requestIfIdle (s : TemperatureSensorHandler) (now : Nat)
    (evs : List Event) : TemperatureSensorHandler × List Event :=
  if s._dataRequested = false then
    ({ s with _previousRequestMillis := now, _dataRequested := true },
      evs ++ [Event.requestTemperatures])
  else (s, evs)

/-- `ReadTemperatureSensorDallas`.  `DEVICE_DISCONNECTED_C` is the constant of the
DallasTemperature library, `tempC` the value `getTempCByIndex(0)` returns if it is
called. -/
def TemperatureSensorHandler.ReadTemperatureSensorDallas (DEVICE_DISCONNECTED_C : ℚ)
    (s : TemperatureSensorHandler) (now : Nat) (tempC : ℚ) :
    TemperatureSensorHandler × List Event :=
  if s._dataRequested = true ∧ elapsedExceeds now s._previousRequestMillis s._waitTime = true then
    let s1 := { s with _dataRequested := false, _sensorBadReading := true }
    if tempC > DEVICE_DISCONNECTED_C then
      let s2 := { s1 with _sensorBadReading := false, _newData := true }
      let s3 :=
        if s2._tempAvailable = true then { s2 with _previousTemperature := s2.Temperature }
        else { s2 with _tempAvailable := true, _previousTemperature := tempC }
      ({ s3 with Temperature := tempC }, [Event.getTempCByIndex])
    else s1.requestIfIdle now [Event.getTempCByIndex]
  else s.requestIfIdle now []

/-- `ReadTemperatureSensorTSIC`, with `tempC` the value `getTemp()` returns if it
is called. -/
def TemperatureSensorHandler.ReadTemperatureSensorTSIC (s : TemperatureSensorHandler)
    (now : Nat) (tempC : ℚ) : TemperatureSensorHandler × List Event :=
  if elapsedExceeds now s._previousRequestMillis s._waitTime = true then
    let s1 := { s with _previousRequestMillis := now }
    let s2 :=
      if tempC ≠ 222 ∧ tempC ≠ 221 then
        { s1 with _sensorBadReading := false, Temperature := tempC }
      else s1
    ({ s2 with _sensorBadReading := true }, [Event.getTemp])
  else (s, [])

/-- `SetSensorParams`. -/
def TemperatureSensorHandler.SetSensorParams (s : TemperatureSensorHandler)
    (tempLowerLimit tempUpperLimit : ℚ) : TemperatureSensorHandler :=
  { s with _lLim := tempLowerLimit, _uLim := tempUpperLimit }

/-- Element `i` of a C array held as a list (the default `d` stands for a read
outside the array, which the C code would not define). -/
def arrGet {α : Type} (d : α) (a : List α) (i : Int) : α :=
  a.getD i.toNat d

/-- Assignment to element `i` of a C array held as a list. -/
def arrSet {α : Type} (a : List α) (i : Int) (v : α) : List α :=
  a.set i.toNat v

/-- `CalculateMovingAverage`.  The history holds `double` values, every operation
on them is a `double` operation, and the assignment to the `float` member
`ChangeRate` narrows the aggregate. -/
def TemperatureSensorHandler.CalculateMovingAverage (s : TemperatureSensorHandler)
    (now : Nat) : TemperatureSensorHandler :=
  let s1 :=
    if s.movingAverageInitialized = false then
      { s with
        tempValues := List.replicate numValues.toNat s.Temperature
        timeValues := List.replicate numValues.toNat 0
        tempChangeRates := List.replicate numValues.toNat (Dbl.fin 0)
        movingAverageInitialized := true }
    else s
  let timeValues := arrSet s1.timeValues s1.valueIndex now
  let tempValues := arrSet s1.tempValues s1.valueIndex s1.Temperature
  let tempChangeRate : Dbl :=
    if s1.valueIndex = numValues - 1 then
      ((Dbl.sub (arrGet 0 tempValues (numValues - 1)) (arrGet 0 tempValues 0)).divNat
        (u32sub (arrGet 0 timeValues (numValues - 1)) (arrGet 0 timeValues 0))).mulPos 10000
    else
      ((Dbl.sub (arrGet 0 tempValues s1.valueIndex)
          (arrGet 0 tempValues (s1.valueIndex + 1))).divNat
        (u32sub (arrGet 0 timeValues s1.valueIndex)
          (arrGet 0 timeValues (s1.valueIndex + 1)))).mulPos 10000
  let tempChangeRates := arrSet s1.tempChangeRates s1.valueIndex tempChangeRate
  let totalTempChangeRateSum : Dbl :=
    (List.range numValues.toNat).foldl
      (fun acc i => acc.add (arrGet (Dbl.fin 0) tempChangeRates (i : Int))) (Dbl.fin 0)
  { s1 with
    timeValues := timeValues
    tempValues := tempValues
    tempChangeRates := tempChangeRates
    ChangeRate := ((totalTempChangeRateSum.divPos 15).mulPos 100).toFloat
    valueIndex := if s1.valueIndex ≥ numValues - 1 then 0 else s1.valueIndex + 1 }

/-- The first condition of `CheckErrors`; `&&` binds tighter than `||`. -/
def TemperatureSensorHandler.outOfLimits (s : TemperatureSensorHandler) : Bool :=
  (s._tempAvailable && decide (s.Temperature ≤ s._lLim)) || decide (s.Temperature ≥ s._uLim)

/-- The second condition of `CheckErrors`: the subtraction is a `float`
subtraction, `fabs` and the comparison are exact. -/
def TemperatureSensorHandler.tooBigDeviation (s : TemperatureSensorHandler) : Bool :=
  (f32sub s.Temperature s._previousTemperature).abs.gt s._maxDeviationBetweenReadings

/-- The four condition blocks of `CheckErrors`, run in order on the pair
`(logMessage, errorFound)`; a later block overwrites the message. -/
def TemperatureSensorHandler.evalConditions (s : TemperatureSensorHandler) :
    Option ErrorMessage × Bool :=
  let r0 : Option ErrorMessage × Bool := (none, false)
  let r1 :=
    if s.outOfLimits = true then
      (some (ErrorMessage.outOfLimits s.Temperature s._lLim s._uLim), true)
    else r0
  let r2 :=
    if s.tooBigDeviation = true then
      (some (ErrorMessage.tooBigDeviation (f32sub s.Temperature s._previousTemperature).abs
        s._maxDeviationBetweenReadings), true)
    else r1
  let r3 := if s._sensorBadReading = true then (some ErrorMessage.invalidValue, true) else r2
  if s._sensorAvailable = false then (some ErrorMessage.noSensorFound, true) else r3

/-- The local `errorFound` of `CheckErrors` after the four condition blocks. -/
def TemperatureSensorHandler.errorFound (s : TemperatureSensorHandler) : Bool :=
  s.evalConditions.2

/-- `CheckErrors`. -/
def TemperatureSensorHandler.CheckErrors (s : TemperatureSensorHandler) (now : Nat) :
    TemperatureSensorHandler × List Event :=
  let logMessage := s.evalConditions.1
  let errorFound := s.evalConditions.2
  if (!s._errorActive && !s.SensorInErrorState && errorFound) = true then
    ({ s with
        _errorLogLastWritten := now
        _errorStateDetectedMillis := now
        _errorActive := true },
      [Event.log LogLine.first, Event.log (LogLine.message logMessage)])
  else if (!s.SensorInErrorState && errorFound
      && elapsedExceeds now s._errorStateDetectedMillis s._maxErrorActiveTime) = true then
    ({ s with SensorInErrorState := true },
      [Event.log LogLine.malfunction, Event.callback s.Temperature s.ChangeRate true])
  else if (errorFound && !s.SensorInErrorState
      && elapsedExceeds now s._errorLogLastWritten s._errorLogInterval) = true then
    ({ s with _errorLogLastWritten := now }, [Event.log (LogLine.message logMessage)])
  else if errorFound = false then ({ s with _errorActive := false }, [])
  else (s, [])

/-- The two backend calls at the head of `RefreshSensorData`. -/
def TemperatureSensorHandler.readSensor (DEVICE_DISCONNECTED_C : ℚ)
    (s : TemperatureSensorHandler) (now : Nat) (tempC : ℚ) :
    TemperatureSensorHandler × List Event :=
  let r1 :=
    if s._sensorType = SensorType.DALLAS then
      s.ReadTemperatureSensorDallas DEVICE_DISCONNECTED_C now tempC
    else (s, [])
  let r2 :=
    if r1.1._sensorType = SensorType.TSIC_306 then r1.1.ReadTemperatureSensorTSIC now tempC
    else (r1.1, [])
  (r2.1, r1.2 ++ r2.2)

/-- The tail of `RefreshSensorData`: the block guarded by `_newData`. -/
def TemperatureSensorHandler.publishNewData (s : TemperatureSensorHandler) (now : Nat) :
    TemperatureSensorHandler × List Event :=
  if s._newData = true then
    let s1 := s.CalculateMovingAverage now
    ({ s1 with _newData := false },
      [Event.callback s1.Temperature s1.ChangeRate s1.SensorInErrorState])
  else (s, [])

/-- `RefreshSensorData`: read the sensor, check for errors, publish new data. -/
def TemperatureSensorHandler.RefreshSensorData (DEVICE_DISCONNECTED_C : ℚ)
    (s : TemperatureSensorHandler) (now : Nat) (tempC : ℚ) :
    TemperatureSensorHandler × List Event :=
  let r1 := s.readSensor DEVICE_DISCONNECTED_C now tempC
  let r2 := r1.1.CheckErrors now
  let r3 := r2.1.publishNewData now
  (r3.1, r1.2 ++ r2.2 ++ r3.2)

/-- The callback invocations among the events of a call. -/
def callbacks (evs : List Event) : List Event :=
  evs.filter (fun e => match e with
    | Event.callback _ _ _ => true
    | _ => false)

/-- The log lines among the events of a call. -/
def logLines (evs : List Event) : List Event :=
  evs.filter (fun e => match e with
    | Event.log _ => true
    | _ => false)

/-- The conversion requests among the events of a call. -/
def requests (evs : List Event) : List Event :=
  evs.filter (fun e => e = Event.requestTemperatures)

/-- The sensor reads among the events of a call. -/
def reads (evs : List Event) : List Event :=
  evs.filter (fun e => e = Event.getTempCByIndex ∨ e = Event.getTemp)

/-- A run of service cycles: `RefreshSensorData` once per input `(now, tempC)`;
the state after the last cycle. -/
def TemperatureSensorHandler.run (DEVICE_DISCONNECTED_C : ℚ) :
    TemperatureSensorHandler → List (Nat × ℚ) → TemperatureSensorHandler
  | s, [] => s
  | s, i :: is =>
    TemperatureSensorHandler.run DEVICE_DISCONNECTED_C
      (s.RefreshSensorData DEVICE_DISCONNECTED_C i.1 i.2).1 is

/-- Whether a fault condition fires in the service cycle with input `i`: the
value of `errorFound` that `CheckErrors` computes after the sensor was read. -/
def TemperatureSensorHandler.faultFires (DEVICE_DISCONNECTED_C : ℚ)
    (s : TemperatureSensorHandler) (i : Nat × ℚ) : Bool :=
  (s.readSensor DEVICE_DISCONNECTED_C i.1 i.2).1.errorFound

/-- Whether a fault condition fires in every cycle of a run. -/
def TemperatureSensorHandler.faultPersists (DEVICE_DISCONNECTED_C : ℚ) :
    TemperatureSensorHandler → List (Nat × ℚ) → Bool
  | _, [] => true
  | s, i :: is =>
    s.faultFires DEVICE_DISCONNECTED_C i &&
      TemperatureSensorHandler.faultPersists DEVICE_DISCONNECTED_C
        (s.RefreshSensorData DEVICE_DISCONNECTED_C i.1 i.2).1 is

/-- Whether the service cycle with input `(now, tempC)` accepts a new reading:
backend DALLAS, a request pending, the wait elapsed and a value above
`DEVICE_DISCONNECTED_C` (the path of `ReadTemperatureSensorDallas` that sets
`_newData`). -/
def TemperatureSensorHandler.acceptsReading (DEVICE_DISCONNECTED_C : ℚ)
    (s : TemperatureSensorHandler) (now : Nat) (tempC : ℚ) : Bool :=
  decide (s._sensorType = SensorType.DALLAS) && s._dataRequested &&
    elapsedExceeds now s._previousRequestMillis s._waitTime &&
    decide (tempC > DEVICE_DISCONNECTED_C)

/-! ## A concrete run

Limits 0 and 150, maximal deviation 5, confirmation delay 5000 ms (the values of
the constructor), a DALLAS sensor, and a clock that advances 1000 ms per service
cycle.  The readings 20, 20, 20 and 30 are accepted in the cycles at 2000, 4000,
6000 and 8000 ms (the cycles between them issue the next request); afterwards the
sensor reports the disconnect value. -/

/-- The value of `DEVICE_DISCONNECTED_C` in the DallasTemperature library. -/
def disconnectedC : ℚ := -127

/-- A constructed handler after `Init` for a DALLAS sensor: one device on the bus,
375 ms conversion time. -/
def dallasStart : TemperatureSensorHandler :=
  TemperatureSensorHandler.ctor.Init 2 SensorType.DALLAS 375 1 false

/-- A constructed handler after `Init` for a TSIC sensor that was found. -/
def tsicStart : TemperatureSensorHandler :=
  TemperatureSensorHandler.ctor.Init 2 SensorType.TSIC_306 375 0 true

/-- The cycles up to and including the one that accepts the third reading 20. -/
def warmupCycles : List (Nat × ℚ) :=
  [(1000, 20), (2000, 20), (3000, 20), (4000, 20), (5000, 20), (6000, 20)]

/-- The state in which the request for the fourth reading is pending. -/
def beforeDeviation : TemperatureSensorHandler :=
  (dallasStart.run disconnectedC warmupCycles).run disconnectedC [(7000, 20)]

/-- The state after the cycle at 8000 ms, which accepts the reading 30. -/
def tentativeState : TemperatureSensorHandler :=
  (beforeDeviation.RefreshSensorData disconnectedC 8000 30).1

/-- The five cycles after the cycle of first detection. -/
def persistCycles : List (Nat × ℚ) :=
  [(9000, -127), (10000, -127), (11000, -127), (12000, -127), (13000, -127)]

/-- The sixth cycle after the cycle of first detection. -/
def sixthCycle : Nat × ℚ := (14000, -127)

/-- The state after the sixth cycle. -/
def confirmedState : TemperatureSensorHandler :=
  tentativeState.run disconnectedC (persistCycles ++ [sixthCycle])

/-- The state after the first service cycle: the first request is pending. -/
def armedState : TemperatureSensorHandler :=
  (dallasStart.RefreshSensorData disconnectedC 1000 20).1

/-- The state in which `CheckErrors` runs in the sixth cycle after the cycle of
first detection. -/
def beforeConfirm : TemperatureSensorHandler :=
  ((tentativeState.run disconnectedC persistCycles).readSensor disconnectedC 14000 (-127)).1

/-- The state in which `CheckErrors` runs when, after the cycle of first
detection, a second reading 30 is accepted in the cycle at 10000 ms. -/
def afterSecondThirty : TemperatureSensorHandler :=
  ((tentativeState.run disconnectedC [(9000, 30)]).readSensor disconnectedC 10000 30).1

/-! ## Runs of the smoothing engine, of the scheduler and of the monitor -/

/-- One accepted reading as `CalculateMovingAverage` sees it: `Temperature` holds
the reading `r.1` and the function is invoked with the clock at `r.2`. -/
def TemperatureSensorHandler.feedReading (s : TemperatureSensorHandler) (r : ℚ × Nat) :
    TemperatureSensorHandler :=
  ({ s with Temperature := r.1 }).CalculateMovingAverage r.2

/-- A sequence of accepted readings, one invocation of `CalculateMovingAverage`
for each. -/
def TemperatureSensorHandler.feedAll :
    TemperatureSensorHandler → List (ℚ × Nat) → TemperatureSensorHandler
  | s, [] => s
  | s, r :: rs => TemperatureSensorHandler.feedAll (s.feedReading r) rs

/-- Readings at a fixed cadence: the first at time `t`, each following one `c`
later. -/
def atCadence (t c : Nat) : List ℚ → List (ℚ × Nat)
  | [] => []
  | r :: rs => (r, t) :: atCadence (t + c) c rs

/-- Whether an invocation of `ReadTemperatureSensorDallas` accepts the value
`tempC`: a request pending, the wait elapsed and the value above
`DEVICE_DISCONNECTED_C`. -/
def TemperatureSensorHandler.dallasAccepts (DEVICE_DISCONNECTED_C : ℚ)
    (s : TemperatureSensorHandler) (now : Nat) (tempC : ℚ) : Bool :=
  s._dataRequested && elapsedExceeds now s._previousRequestMillis s._waitTime &&
    decide (tempC > DEVICE_DISCONNECTED_C)

/-- Whether an invocation of `ReadTemperatureSensorDallas` collects a result (calls
`getTempCByIndex`): a request pending and the wait elapsed. -/
def TemperatureSensorHandler.dallasCollects (s : TemperatureSensorHandler) (now : Nat) :
    Bool :=
  s._dataRequested && elapsedExceeds now s._previousRequestMillis s._waitTime

/-- A sequence of invocations of `ReadTemperatureSensorDallas`, one for each input
`(now, tempC)`; the state after the last. -/
def TemperatureSensorHandler.dallasRun (DEVICE_DISCONNECTED_C : ℚ) :
    TemperatureSensorHandler → List (Nat × ℚ) → TemperatureSensorHandler
  | s, [] => s
  | s, i :: is =>
    TemperatureSensorHandler.dallasRun DEVICE_DISCONNECTED_C
      (s.ReadTemperatureSensorDallas DEVICE_DISCONNECTED_C i.1 i.2).1 is

/-- The readings accepted in a sequence of invocations of
`ReadTemperatureSensorDallas`, in order. -/
def TemperatureSensorHandler.acceptedReadings (DEVICE_DISCONNECTED_C : ℚ) :
    TemperatureSensorHandler → List (Nat × ℚ) → List ℚ
  | _, [] => []
  | s, i :: is =>
    (if s.dallasAccepts DEVICE_DISCONNECTED_C i.1 i.2 = true then [i.2] else []) ++
      TemperatureSensorHandler.acceptedReadings DEVICE_DISCONNECTED_C
        (s.ReadTemperatureSensorDallas DEVICE_DISCONNECTED_C i.1 i.2).1 is

/-- The callback invocations made by `CheckErrors` in the service cycles of a run,
in order. -/
def TemperatureSensorHandler.monitorCallbacks (DEVICE_DISCONNECTED_C : ℚ) :
    TemperatureSensorHandler → List (Nat × ℚ) → List Event
  | _, [] => []
  | s, i :: is =>
    callbacks ((s.readSensor DEVICE_DISCONNECTED_C i.1 i.2).1.CheckErrors i.1).2 ++
      TemperatureSensorHandler.monitorCallbacks DEVICE_DISCONNECTED_C
        (s.RefreshSensorData DEVICE_DISCONNECTED_C i.1 i.2).1 is

/-- Sixteen strictly increasing readings. -/
def risingReadings : List ℚ :=
  [20, 21, 22, 23, 24, 25, 26, 27, 28, 29, 30, 31, 32, 33, 34, 35]

/-- Invocations of `ReadTemperatureSensorDallas` of every kind: a first request, a
poll before the wait has elapsed, an invalid read, an accepted read of 21, a new
request, an accepted read of 23 and a last request. -/
def mixedPolls : List (Nat × ℚ) :=
  [(1000, 20), (1200, 20), (2000, -127), (3000, 21), (3100, 22), (4000, 23), (5000, 24)]

/-- The state after a service cycle that read the disconnect value: the next
request is pending since 2000 ms. -/
def afterInvalidRead : TemperatureSensorHandler :=
  (armedState.RefreshSensorData disconnectedC 2000 (-127)).1

/-- The state of a TSIC handler after the service cycle of its first tick, at
401 ms, with the valid value 25. -/
def tsicAfterTick : TemperatureSensorHandler :=
  (tsicStart.RefreshSensorData disconnectedC 401 25).1

/-- Service cycles of a TSIC handler, all with the valid value 25. -/
def tsicCycles : List (Nat × ℚ) :=
  [(1000, 25), (2000, 25), (3000, 25), (4000, 25), (5000, 25), (6000, 25)]

/-- Service cycles that accept the two `float` readings `3/2^23` and `5 + 1/2^21`
(at 2000 ms and at 4000 ms), whose exact difference is `5 + 1/2^23`. -/
def nearFiveCycles : List (Nat × ℚ) :=
  [(1000, 3 / 2 ^ 23), (2000, 3 / 2 ^ 23), (3000, 5 + 1 / 2 ^ 21), (4000, 5 + 1 / 2 ^ 21)]

/-- The state in which the request for the reading `5 + 1/2^21` is pending, the
reading `3/2^23` having been accepted. -/
def beforeNearFive : TemperatureSensorHandler :=
  dallasStart.run disconnectedC (nearFiveCycles.take 3)

/-- The state in which `CheckErrors` runs after the `float` readings
`-28147498/2^48` (the `float` nearest to `-1/10^7`) and `5` were accepted. -/
def afterFive : TemperatureSensorHandler :=
  ((dallasStart.run disconnectedC
    [(1000, -28147498 / 2 ^ 48), (2000, -28147498 / 2 ^ 48), (3000, 5)]).readSensor
      disconnectedC 4000 5).1

theorem toU32_of_nonneg (i : Int) (h0 : 0 ≤ i) (h1 : i < 4294967296) :
    (toU32 i : Int) = i := by
  unfold toU32
  omega

theorem u32sub_cast (a b : Nat) :
    (u32sub a b : Int) = ((a : Int) - (b : Int)) % 4294967296 := by
  unfold u32sub
  omega

theorem elapsedExceeds_iff (now stamp : Nat) (thr : Int) (h0 : 0 ≤ thr)
    (h1 : thr < 4294967296) :
    elapsedExceeds now stamp thr = true ↔ thr < ((now : Int) - (stamp : Int)) % 4294967296 := by
  unfold elapsedExceeds
  rw [decide_eq_true_eq, ← u32sub_cast, ← Int.ofNat_lt, toU32_of_nonneg thr h0 h1]

theorem u32sub_add_mod (t d : Nat) (hd : d < 4294967296) :
    u32sub ((t + d) % 4294967296) t = d := by
  unfold u32sub
  omega

/-! ## The branches of `CheckErrors` -/

theorem CheckErrors_firstDetection (s : TemperatureSensorHandler) (now : Nat)
    (ha : s._errorActive = false) (hc : s.SensorInErrorState = false)
    (hf : s.errorFound = true) :
    s.CheckErrors now =
      ({ s with
          _errorLogLastWritten := now
          _errorStateDetectedMillis := now
          _errorActive := true },
        [Event.log LogLine.first, Event.log (LogLine.message s.evalConditions.1)]) := by
  unfold TemperatureSensorHandler.errorFound at hf
  simp [TemperatureSensorHandler.CheckErrors, ha, hc, hf]

theorem CheckErrors_confirm (s : TemperatureSensorHandler) (now : Nat)
    (ha : s._errorActive = true) (hc : s.SensorInErrorState = false)
    (hf : s.errorFound = true)
    (he : elapsedExceeds now s._errorStateDetectedMillis s._maxErrorActiveTime = true) :
    s.CheckErrors now =
      ({ s with SensorInErrorState := true },
        [Event.log LogLine.malfunction, Event.callback s.Temperature s.ChangeRate true]) := by
  unfold TemperatureSensorHandler.errorFound at hf
  simp [TemperatureSensorHandler.CheckErrors, ha, hc, hf, he]

theorem CheckErrors_relog (s : TemperatureSensorHandler) (now : Nat)
    (ha : s._errorActive = true) (hc : s.SensorInErrorState = false)
    (hf : s.errorFound = true)
    (he : elapsedExceeds now s._errorStateDetectedMillis s._maxErrorActiveTime = false)
    (hl : elapsedExceeds now s._errorLogLastWritten s._errorLogInterval = true) :
    s.CheckErrors now =
      ({ s with _errorLogLastWritten := now },
        [Event.log (LogLine.message s.evalConditions.1)]) := by
  unfold TemperatureSensorHandler.errorFound at hf
  simp [TemperatureSensorHandler.CheckErrors, ha, hc, hf, he, hl]

theorem CheckErrors_wait (s : TemperatureSensorHandler) (now : Nat)
    (ha : s._errorActive = true) (hc : s.SensorInErrorState = false)
    (hf : s.errorFound = true)
    (he : elapsedExceeds now s._errorStateDetectedMillis s._maxErrorActiveTime = false)
    (hl : elapsedExceeds now s._errorLogLastWritten s._errorLogInterval = false) :
    s.CheckErrors now = (s, []) := by
  unfold TemperatureSensorHandler.errorFound at hf
  simp [TemperatureSensorHandler.CheckErrors, ha, hc, hf, he, hl]

theorem CheckErrors_latched (s : TemperatureSensorHandler) (now : Nat)
    (hc : s.SensorInErrorState = true) (hf : s.errorFound = true) :
    s.CheckErrors now = (s, []) := by
  unfold TemperatureSensorHandler.errorFound at hf
  simp [TemperatureSensorHandler.CheckErrors, hc, hf]

theorem CheckErrors_noFault (s : TemperatureSensorHandler) (now : Nat)
    (hf : s.errorFound = false) :
    s.CheckErrors now = ({ s with _errorActive := false }, []) := by
  unfold TemperatureSensorHandler.errorFound at hf
  simp [TemperatureSensorHandler.CheckErrors, hf]

/-! ## What the stages of a service cycle leave unchanged -/

theorem requestIfIdle_fault_fields (s : TemperatureSensorHandler) (now : Nat)
    (evs : List Event) :
    (s.requestIfIdle now evs).1.SensorInErrorState = s.SensorInErrorState ∧
    (s.requestIfIdle now evs).1._errorActive = s._errorActive ∧
    (s.requestIfIdle now evs).1._errorStateDetectedMillis = s._errorStateDetectedMillis ∧
    (s.requestIfIdle now evs).1._maxErrorActiveTime = s._maxErrorActiveTime := by
  unfold TemperatureSensorHandler.requestIfIdle
  split <;> simp

theorem ReadTemperatureSensorDallas_fault_fields (d : ℚ) (s : TemperatureSensorHandler)
    (now : Nat) (tempC : ℚ) :
    (s.ReadTemperatureSensorDallas d now tempC).1.SensorInErrorState = s.SensorInErrorState ∧
    (s.ReadTemperatureSensorDallas d now tempC).1._errorActive = s._errorActive ∧
    (s.ReadTemperatureSensorDallas d now tempC).1._errorStateDetectedMillis
      = s._errorStateDetectedMillis ∧
    (s.ReadTemperatureSensorDallas d now tempC).1._maxErrorActiveTime
      = s._maxErrorActiveTime := by
  unfold TemperatureSensorHandler.ReadTemperatureSensorDallas
  split
  · split
    · simp only []
      split <;> simp
    · exact requestIfIdle_fault_fields _ now _
  · exact requestIfIdle_fault_fields s now _

theorem ReadTemperatureSensorTSIC_fault_fields (s : TemperatureSensorHandler)
    (now : Nat) (tempC : ℚ) :
    (s.ReadTemperatureSensorTSIC now tempC).1.SensorInErrorState = s.SensorInErrorState ∧
    (s.ReadTemperatureSensorTSIC now tempC).1._errorActive = s._errorActive ∧
    (s.ReadTemperatureSensorTSIC now tempC).1._errorStateDetectedMillis
      = s._errorStateDetectedMillis ∧
    (s.ReadTemperatureSensorTSIC now tempC).1._maxErrorActiveTime
      = s._maxErrorActiveTime := by
  unfold TemperatureSensorHandler.ReadTemperatureSensorTSIC
  split
  · simp only []
    split <;> simp
  · simp

theorem readSensor_fault_fields (d : ℚ) (s : TemperatureSensorHandler)
    (now : Nat) (tempC : ℚ) :
    (s.readSensor d now tempC).1.SensorInErrorState = s.SensorInErrorState ∧
    (s.readSensor d now tempC).1._errorActive = s._errorActive ∧
    (s.readSensor d now tempC).1._errorStateDetectedMillis = s._errorStateDetectedMillis ∧
    (s.readSensor d now tempC).1._maxErrorActiveTime = s._maxErrorActiveTime := by
  have hD := ReadTemperatureSensorDallas_fault_fields d s now tempC
  unfold TemperatureSensorHandler.readSensor
  simp only []
  split
  · have hT := ReadTemperatureSensorTSIC_fault_fields
      (s.ReadTemperatureSensorDallas d now tempC).1 now tempC
    split
    · exact ⟨hT.1.trans hD.1, hT.2.1.trans hD.2.1, hT.2.2.1.trans hD.2.2.1,
        hT.2.2.2.trans hD.2.2.2⟩
    · exact hD
  · have hT := ReadTemperatureSensorTSIC_fault_fields s now tempC
    split
    · exact hT
    · simp

theorem CalculateMovingAverage_fault_fields (s : TemperatureSensorHandler) (now : Nat) :
    (s.CalculateMovingAverage now).SensorInErrorState = s.SensorInErrorState ∧
    (s.CalculateMovingAverage now)._errorActive = s._errorActive ∧
    (s.CalculateMovingAverage now)._errorStateDetectedMillis = s._errorStateDetectedMillis ∧
    (s.CalculateMovingAverage now)._maxErrorActiveTime = s._maxErrorActiveTime ∧
    (s.CalculateMovingAverage now).Temperature = s.Temperature := by
  unfold TemperatureSensorHandler.CalculateMovingAverage
  simp only []
  split <;> simp

theorem publishNewData_fault_fields (s : TemperatureSensorHandler) (now : Nat) :
    (s.publishNewData now).1.SensorInErrorState = s.SensorInErrorState ∧
    (s.publishNewData now).1._errorActive = s._errorActive ∧
    (s.publishNewData now).1._errorStateDetectedMillis = s._errorStateDetectedMillis ∧
    (s.publishNewData now).1._maxErrorActiveTime = s._maxErrorActiveTime ∧
    (s.publishNewData now).1.Temperature = s.Temperature := by
  have h := CalculateMovingAverage_fault_fields s now
  unfold TemperatureSensorHandler.publishNewData
  split
  · exact h
  · simp

theorem CheckErrors_keeps_true (s : TemperatureSensorHandler) (now : Nat)
    (hc : s.SensorInErrorState = true) :
    (s.CheckErrors now).1.SensorInErrorState = true := by
  cases hf : s.errorFound
  · rw [CheckErrors_noFault s now hf]
    exact hc
  · rw [CheckErrors_latched s now hc hf]
    exact hc

theorem RefreshSensorData_keeps_true (d : ℚ) (s : TemperatureSensorHandler) (now : Nat)
    (tempC : ℚ) (hc : s.SensorInErrorState = true) :
    (s.RefreshSensorData d now tempC).1.SensorInErrorState = true := by
  unfold TemperatureSensorHandler.RefreshSensorData
  simp only []
  rw [(publishNewData_fault_fields _ now).1]
  apply CheckErrors_keeps_true
  rw [(readSensor_fault_fields d s now tempC).1]
  exact hc

/-- Claim C1.  The confirmed fault flag is a one-way latch: if `SensorInErrorState`
is true before a call of `RefreshSensorData`, for any clock value and sensor value,
or before a call of `SetSensorParams`, for any limits, it is true after the call. -/
theorem SensorInErrorState_is_latched (d : ℚ) (s : TemperatureSensorHandler) (now : Nat)
    (tempC lower upper : ℚ) (hc : s.SensorInErrorState = true) :
    (s.RefreshSensorData d now tempC).1.SensorInErrorState = true ∧
    (s.SetSensorParams lower upper).SensorInErrorState = true :=
  ⟨RefreshSensorData_keeps_true d s now tempC hc, hc⟩

theorem CheckErrors_transition (s : TemperatureSensorHandler) (now : Nat) :
    ((s.SensorInErrorState = false ∧ (s.CheckErrors now).1.SensorInErrorState = true) ↔
      (s.SensorInErrorState = false ∧ s._errorActive = true ∧ s.errorFound = true ∧
        elapsedExceeds now s._errorStateDetectedMillis s._maxErrorActiveTime = true)) ∧
    ((s.SensorInErrorState = false ∧ (s.CheckErrors now).1.SensorInErrorState = true) →
      callbacks (s.CheckErrors now).2 = [Event.callback s.Temperature s.ChangeRate true] ∧
      (s.CheckErrors now).1.Temperature = s.Temperature ∧
      (s.CheckErrors now).1.ChangeRate = s.ChangeRate ∧
      (s.CheckErrors now).1._errorLogLastWritten = s._errorLogLastWritten ∧
      (s.CheckErrors now).1._errorStateDetectedMillis = s._errorStateDetectedMillis) ∧
    (s._errorActive = false →
      (s.CheckErrors now).1.SensorInErrorState = s.SensorInErrorState) := by
  cases hc : s.SensorInErrorState
  · cases hf : s.errorFound
    · rw [CheckErrors_noFault s now hf]
      simp [hc]
    · cases ha : s._errorActive
      · rw [CheckErrors_firstDetection s now ha hc hf]
        simp [hc]
      · cases he : elapsedExceeds now s._errorStateDetectedMillis s._maxErrorActiveTime
        · cases hl : elapsedExceeds now s._errorLogLastWritten s._errorLogInterval
          · rw [CheckErrors_wait s now ha hc hf he hl]
            simp [hc]
          · rw [CheckErrors_relog s now ha hc hf he hl]
            simp [hc]
        · rw [CheckErrors_confirm s now ha hc hf he]
          simp [callbacks]
  · simp [CheckErrors_keeps_true s now hc]

/-- Claim C2.  One evaluation of `CheckErrors`, with `_maxErrorActiveTime` a
non-negative `int`, changes the confirmed flag from false to true if and only if
at entry the confirmed flag is false, `_errorActive` is true, a fault condition
fires and `(now - _errorStateDetectedMillis) mod 2^32 > _maxErrorActiveTime`.
Whenever the flag changes from false to true, the callback is invoked exactly
once, with `(Temperature, ChangeRate, true)`, and neither time stamp changes.  A
call that enters with `_errorActive` false (the first-detection cycle) leaves the
confirmed flag as it is, whatever the delay. -/
theorem CheckErrors_confirms_iff (s : TemperatureSensorHandler) (now : Nat) :
    (0 ≤ s._maxErrorActiveTime → s._maxErrorActiveTime < 2147483648 →
      ((s.SensorInErrorState = false ∧ (s.CheckErrors now).1.SensorInErrorState = true) ↔
        (s.SensorInErrorState = false ∧ s._errorActive = true ∧ s.errorFound = true ∧
          ((now : Int) - (s._errorStateDetectedMillis : Int)) % 4294967296
            > s._maxErrorActiveTime))) ∧
    ((s.SensorInErrorState = false ∧ (s.CheckErrors now).1.SensorInErrorState = true) →
      callbacks (s.CheckErrors now).2 = [Event.callback s.Temperature s.ChangeRate true] ∧
      (s.CheckErrors now).1.Temperature = s.Temperature ∧
      (s.CheckErrors now).1.ChangeRate = s.ChangeRate ∧
      (s.CheckErrors now).1._errorLogLastWritten = s._errorLogLastWritten ∧
      (s.CheckErrors now).1._errorStateDetectedMillis = s._errorStateDetectedMillis) ∧
    (s._errorActive = false →
      (s.CheckErrors now).1.SensorInErrorState = s.SensorInErrorState) := by
  have h := CheckErrors_transition s now
  refine ⟨fun h0 h1 => ?_, h.2.1, h.2.2⟩
  rw [h.1, elapsedExceeds_iff now s._errorStateDetectedMillis s._maxErrorActiveTime h0
    (by omega)]

/-- Claim C5.  If no fault condition fires in a cycle, `CheckErrors` clears
`_errorActive`, leaves the confirmed flag and both time stamps unchanged (it
changes nothing else either) and emits no log line and no callback. -/
theorem CheckErrors_self_clear (s : TemperatureSensorHandler) (now : Nat)
    (hf : s.errorFound = false) :
    (s.CheckErrors now).1._errorActive = false ∧
    (s.CheckErrors now).1.SensorInErrorState = s.SensorInErrorState ∧
    (s.CheckErrors now).1._errorStateDetectedMillis = s._errorStateDetectedMillis ∧
    (s.CheckErrors now).1._errorLogLastWritten = s._errorLogLastWritten ∧
    (s.CheckErrors now).1 = { s with _errorActive := false } ∧
    logLines (s.CheckErrors now).2 = [] ∧
    callbacks (s.CheckErrors now).2 = [] := by
  rw [CheckErrors_noFault s now hf]
  simp [logLines, callbacks]

/-! ## The branches of `ReadTemperatureSensorDallas` -/

theorem Dallas_accept (d : ℚ) (s : TemperatureSensorHandler) (now : Nat) (tempC : ℚ)
    (hreq : s._dataRequested = true)
    (hel : elapsedExceeds now s._previousRequestMillis s._waitTime = true)
    (hacc : tempC > d) :
    s.ReadTemperatureSensorDallas d now tempC =
      ({ s with
          _dataRequested := false
          _sensorBadReading := false
          _newData := true
          _tempAvailable := true
          _previousTemperature := if s._tempAvailable = true then s.Temperature else tempC
          Temperature := tempC },
        [Event.getTempCByIndex]) := by
  unfold TemperatureSensorHandler.ReadTemperatureSensorDallas
  cases hav : s._tempAvailable <;> simp [hreq, hel, hacc, hav]

theorem Dallas_reject (d : ℚ) (s : TemperatureSensorHandler) (now : Nat) (tempC : ℚ)
    (hreq : s._dataRequested = true)
    (hel : elapsedExceeds now s._previousRequestMillis s._waitTime = true)
    (hrej : tempC ≤ d) :
    s.ReadTemperatureSensorDallas d now tempC =
      ({ s with
          _dataRequested := true
          _sensorBadReading := true
          _previousRequestMillis := now },
        [Event.getTempCByIndex, Event.requestTemperatures]) := by
  unfold TemperatureSensorHandler.ReadTemperatureSensorDallas
    TemperatureSensorHandler.requestIfIdle
  simp [hreq, hel, not_lt.mpr hrej]

theorem Dallas_waiting (d : ℚ) (s : TemperatureSensorHandler) (now : Nat) (tempC : ℚ)
    (hreq : s._dataRequested = true)
    (hel : elapsedExceeds now s._previousRequestMillis s._waitTime = false) :
    s.ReadTemperatureSensorDallas d now tempC = (s, []) := by
  unfold TemperatureSensorHandler.ReadTemperatureSensorDallas
    TemperatureSensorHandler.requestIfIdle
  simp [hreq, hel]

theorem Dallas_idle (d : ℚ) (s : TemperatureSensorHandler) (now : Nat) (tempC : ℚ)
    (hreq : s._dataRequested = false) :
    s.ReadTemperatureSensorDallas d now tempC =
      ({ s with _previousRequestMillis := now, _dataRequested := true },
        [Event.requestTemperatures]) := by
  unfold TemperatureSensorHandler.ReadTemperatureSensorDallas
    TemperatureSensorHandler.requestIfIdle
  simp [hreq]

theorem readSensor_dallas (d : ℚ) (s : TemperatureSensorHandler) (now : Nat) (tempC : ℚ)
    (hT : s._sensorType = SensorType.DALLAS) :
    s.readSensor d now tempC = s.ReadTemperatureSensorDallas d now tempC := by
  have hk : (s.ReadTemperatureSensorDallas d now tempC).1._sensorType = SensorType.DALLAS := by
    unfold TemperatureSensorHandler.ReadTemperatureSensorDallas
      TemperatureSensorHandler.requestIfIdle
    simp only []
    split
    · split
      · split <;> simpa using hT
      · split <;> simpa using hT
    · split <;> simpa using hT
  unfold TemperatureSensorHandler.readSensor
  simp [hT, hk]

theorem readSensor_tsic (d : ℚ) (s : TemperatureSensorHandler) (now : Nat) (tempC : ℚ)
    (hT : s._sensorType = SensorType.TSIC_306) :
    s.readSensor d now tempC = s.ReadTemperatureSensorTSIC now tempC := by
  unfold TemperatureSensorHandler.readSensor
  simp [hT]

theorem errorFound_eq (s : TemperatureSensorHandler) :
    s.errorFound =
      (s.outOfLimits || s.tooBigDeviation || s._sensorBadReading || !s._sensorAvailable) := by
  unfold TemperatureSensorHandler.errorFound TemperatureSensorHandler.evalConditions
  cases s.outOfLimits <;> cases s.tooBigDeviation <;> cases s._sensorBadReading <;>
    cases s._sensorAvailable <;> rfl

theorem CheckErrors_tentative_of_fault (s : TemperatureSensorHandler) (now : Nat)
    (hc : s.SensorInErrorState = false) (hf : s.errorFound = true) :
    (s.CheckErrors now).1._errorActive = true ∧
    (s._errorActive = false → (s.CheckErrors now).1._errorStateDetectedMillis = now) := by
  cases ha : s._errorActive
  · rw [CheckErrors_firstDetection s now ha hc hf]
    simp
  · cases he : elapsedExceeds now s._errorStateDetectedMillis s._maxErrorActiveTime
    · cases hl : elapsedExceeds now s._errorLogLastWritten s._errorLogInterval
      · rw [CheckErrors_wait s now ha hc hf he hl]
        simp [ha]
      · rw [CheckErrors_relog s now ha hc hf he hl]
        simp [ha]
    · rw [CheckErrors_confirm s now ha hc hf he]
      simp [ha]

/-- Claim C4, as the code has it.  Backend DALLAS, `r1 = Temperature` the last
accepted reading (`_tempAvailable`), a request pending whose wait has elapsed, and
a value `r2 = tempC` that is accepted (above the disconnect value) such that the
`float` difference `r2 - r1`, rounded as the subtraction of `CheckErrors` rounds
it, exceeds `_maxDeviationBetweenReadings` in absolute value, the confirmed flag
not set: at the end of that `RefreshSensorData` cycle `_errorActive` is true, and
if it was false at entry, `_errorStateDetectedMillis` is the clock value of the
cycle. -/
theorem deviation_sets_tentative (d : ℚ) (s : TemperatureSensorHandler) (now : Nat)
    (tempC : ℚ) (hT : s._sensorType = SensorType.DALLAS)
    (hav : s._tempAvailable = true) (hreq : s._dataRequested = true)
    (hel : elapsedExceeds now s._previousRequestMillis s._waitTime = true)
    (hacc : tempC > d)
    (hdev : (f32sub tempC s.Temperature).abs.gt s._maxDeviationBetweenReadings = true)
    (hc : s.SensorInErrorState = false) :
    (s.RefreshSensorData d now tempC).1.Temperature = tempC ∧
    (s.RefreshSensorData d now tempC).1._errorActive = true ∧
    (s._errorActive = false →
      (s.RefreshSensorData d now tempC).1._errorStateDetectedMillis = now) := by
  have hr := readSensor_dallas d s now tempC hT
  rw [Dallas_accept d s now tempC hreq hel hacc] at hr
  have hff := readSensor_fault_fields d s now tempC
  have hc1 : (s.readSensor d now tempC).1.SensorInErrorState = false := hff.1.trans hc
  have hf1 : (s.readSensor d now tempC).1.errorFound = true := by
    rw [errorFound_eq]
    have : (s.readSensor d now tempC).1.tooBigDeviation = true := by
      rw [hr]
      unfold TemperatureSensorHandler.tooBigDeviation
      simp only [hav, if_true]
      exact hdev
    simp [this]
  have hce := CheckErrors_tentative_of_fault (s.readSensor d now tempC).1 now hc1 hf1
  have hT1 : ((s.readSensor d now tempC).1.CheckErrors now).1.Temperature = tempC := by
    cases ha : (s.readSensor d now tempC).1._errorActive
    · rw [CheckErrors_firstDetection _ now ha hc1 hf1, hr]
    · cases he : elapsedExceeds now (s.readSensor d now tempC).1._errorStateDetectedMillis
          (s.readSensor d now tempC).1._maxErrorActiveTime
      · cases hl : elapsedExceeds now (s.readSensor d now tempC).1._errorLogLastWritten
            (s.readSensor d now tempC).1._errorLogInterval
        · rw [CheckErrors_wait _ now ha hc1 hf1 he hl, hr]
        · rw [CheckErrors_relog _ now ha hc1 hf1 he hl, hr]
      · rw [CheckErrors_confirm _ now ha hc1 hf1 he, hr]
  have hp := publishNewData_fault_fields ((s.readSensor d now tempC).1.CheckErrors now).1 now
  unfold TemperatureSensorHandler.RefreshSensorData
  simp only []
  refine ⟨hp.2.2.2.2.trans hT1, hp.2.1.trans hce.1, fun ha => ?_⟩
  rw [hp.2.2.1]
  exact hce.2 (hff.2.1.trans ha)

/-- Claim C6.  Backend DALLAS with a request pending and the wait elapsed: a
value less than or equal to `DEVICE_DISCONNECTED_C` leaves `Temperature`,
`_previousTemperature` and `_tempAvailable` unchanged, leaves `_newData` as it was
(no new data is signalled) and sets `_sensorBadReading`; a strictly greater value
becomes `Temperature`, clears `_sensorBadReading` and sets `_newData`. -/
theorem Dallas_disconnect_sentinel (d : ℚ) (s : TemperatureSensorHandler) (now : Nat)
    (tempC : ℚ) (hreq : s._dataRequested = true)
    (hel : elapsedExceeds now s._previousRequestMillis s._waitTime = true) :
    (tempC ≤ d →
      (s.ReadTemperatureSensorDallas d now tempC).1.Temperature = s.Temperature ∧
      (s.ReadTemperatureSensorDallas d now tempC).1._previousTemperature
        = s._previousTemperature ∧
      (s.ReadTemperatureSensorDallas d now tempC).1._tempAvailable = s._tempAvailable ∧
      (s.ReadTemperatureSensorDallas d now tempC).1._newData = s._newData ∧
      (s.ReadTemperatureSensorDallas d now tempC).1._sensorBadReading = true) ∧
    (tempC > d →
      (s.ReadTemperatureSensorDallas d now tempC).1.Temperature = tempC ∧
      (s.ReadTemperatureSensorDallas d now tempC).1._sensorBadReading = false ∧
      (s.ReadTemperatureSensorDallas d now tempC).1._newData = true) := by
  constructor
  · intro hrej
    rw [Dallas_reject d s now tempC hreq hel hrej]
    simp
  · intro hacc
    rw [Dallas_accept d s now tempC hreq hel hacc]
    simp

/-- Claim C7.  Backend TSIC on a tick (`_waitTime` is 400 and the time since
`_previousRequestMillis`, modulo `2^32`, is greater than 400): afterwards
`Temperature` is the value read if that is neither 221 nor 222 and is unchanged
if it is one of them; in all cases `_sensorBadReading` is true,
`_previousRequestMillis` is `now`, and `_newData` and `_previousTemperature` are
unchanged. -/
theorem TSIC_tick_postcondition (s : TemperatureSensorHandler) (now : Nat) (v : ℚ)
    (hw : s._waitTime = 400)
    (hel : ((now : Int) - (s._previousRequestMillis : Int)) % 4294967296 > 400) :
    ((v ≠ 221 ∧ v ≠ 222) → (s.ReadTemperatureSensorTSIC now v).1.Temperature = v) ∧
    ((v = 221 ∨ v = 222) → (s.ReadTemperatureSensorTSIC now v).1.Temperature = s.Temperature) ∧
    (s.ReadTemperatureSensorTSIC now v).1._sensorBadReading = true ∧
    (s.ReadTemperatureSensorTSIC now v).1._previousRequestMillis = now ∧
    (s.ReadTemperatureSensorTSIC now v).1._newData = s._newData ∧
    (s.ReadTemperatureSensorTSIC now v).1._previousTemperature = s._previousTemperature ∧
    (s.ReadTemperatureSensorTSIC now v).2 = [Event.getTemp] := by
  have he : elapsedExceeds now s._previousRequestMillis s._waitTime = true := by
    rw [elapsedExceeds_iff now s._previousRequestMillis s._waitTime (by omega) (by omega), hw]
    exact hel
  unfold TemperatureSensorHandler.ReadTemperatureSensorTSIC
  simp only [he, if_true]
  refine ⟨?_, ?_, ?_, ?_, ?_, ?_, ?_⟩
  · rintro ⟨h1, h2⟩
    simp [h1, h2]
  · rintro (h | h) <;> simp [h]
  · simp
  · split <;> simp
  · split <;> simp
  · split <;> simp
  · simp

/-! ## Runs of service cycles -/

theorem run_keeps_true (d : ℚ) (ins : List (Nat × ℚ)) :
    ∀ s : TemperatureSensorHandler, s.SensorInErrorState = true →
      (s.run d ins).SensorInErrorState = true := by
  induction ins with
  | nil => intro s hc; exact hc
  | cons i is ih =>
    intro s hc
    exact ih _ (RefreshSensorData_keeps_true d s i.1 i.2 hc)

theorem RefreshSensorData_tentative_step (d : ℚ) (s : TemperatureSensorHandler)
    (i : Nat × ℚ) (ha : s._errorActive = true) (hc : s.SensorInErrorState = false)
    (h0 : 0 ≤ s._maxErrorActiveTime) (h1 : s._maxErrorActiveTime < 2147483648)
    (hfire : s.faultFires d i = true) :
    (s.RefreshSensorData d i.1 i.2).1._errorStateDetectedMillis
      = s._errorStateDetectedMillis ∧
    (s.RefreshSensorData d i.1 i.2).1._maxErrorActiveTime = s._maxErrorActiveTime ∧
    (s.RefreshSensorData d i.1 i.2).1._errorActive = true ∧
    ((s.RefreshSensorData d i.1 i.2).1.SensorInErrorState = true ↔
      s._maxErrorActiveTime
        < ((i.1 : Int) - (s._errorStateDetectedMillis : Int)) % 4294967296) := by
  have hff := readSensor_fault_fields d s i.1 i.2
  have hp := publishNewData_fault_fields ((s.readSensor d i.1 i.2).1.CheckErrors i.1).1 i.1
  have ha1 : (s.readSensor d i.1 i.2).1._errorActive = true := hff.2.1.trans ha
  have hc1 : (s.readSensor d i.1 i.2).1.SensorInErrorState = false := hff.1.trans hc
  have hiff := elapsedExceeds_iff i.1 s._errorStateDetectedMillis s._maxErrorActiveTime h0
    (by omega)
  unfold TemperatureSensorHandler.faultFires at hfire
  unfold TemperatureSensorHandler.RefreshSensorData
  simp only []
  rw [hp.1, hp.2.1, hp.2.2.1, hp.2.2.2.1]
  cases he : elapsedExceeds i.1 (s.readSensor d i.1 i.2).1._errorStateDetectedMillis
      (s.readSensor d i.1 i.2).1._maxErrorActiveTime
  · have hn : ¬ s._maxErrorActiveTime
        < ((i.1 : Int) - (s._errorStateDetectedMillis : Int)) % 4294967296 := by
      rw [← hiff, ← hff.2.2.1, ← hff.2.2.2, he]
      simp
    cases hl : elapsedExceeds i.1 (s.readSensor d i.1 i.2).1._errorLogLastWritten
        (s.readSensor d i.1 i.2).1._errorLogInterval
    · rw [CheckErrors_wait _ i.1 ha1 hc1 hfire he hl]
      exact ⟨hff.2.2.1, hff.2.2.2, ha1, by simp [hc1, hn]⟩
    · rw [CheckErrors_relog _ i.1 ha1 hc1 hfire he hl]
      exact ⟨hff.2.2.1, hff.2.2.2, ha1, by simp [hc1, hn]⟩
  · have hy : s._maxErrorActiveTime
        < ((i.1 : Int) - (s._errorStateDetectedMillis : Int)) % 4294967296 := by
      rw [← hiff, ← hff.2.2.1, ← hff.2.2.2]
      exact he
    rw [CheckErrors_confirm _ i.1 ha1 hc1 hfire he]
    exact ⟨hff.2.2.1, hff.2.2.2, ha1, by simp [hy]⟩

theorem run_confirms_iff (d : ℚ) (ins : List (Nat × ℚ)) :
    ∀ s : TemperatureSensorHandler,
      s._errorActive = true → s.SensorInErrorState = false →
      0 ≤ s._maxErrorActiveTime → s._maxErrorActiveTime < 2147483648 →
      s.faultPersists d ins = true →
      ((s.run d ins).SensorInErrorState = true ↔
        ∃ i ∈ ins, s._maxErrorActiveTime
          < ((i.1 : Int) - (s._errorStateDetectedMillis : Int)) % 4294967296) := by
  induction ins with
  | nil =>
    intro s _ hc _ _ _
    simp [TemperatureSensorHandler.run, hc]
  | cons i is ih =>
    intro s ha hc h0 h1 hp
    unfold TemperatureSensorHandler.faultPersists at hp
    rw [Bool.and_eq_true] at hp
    have hs := RefreshSensorData_tentative_step d s i ha hc h0 h1 hp.1
    unfold TemperatureSensorHandler.run
    cases hc2 : (s.RefreshSensorData d i.1 i.2).1.SensorInErrorState
    · have hih := ih _ hs.2.2.1 hc2 (by rw [hs.2.1]; exact h0) (by rw [hs.2.1]; exact h1) hp.2
      rw [hih, hs.1, hs.2.1]
      have hn : ¬ s._maxErrorActiveTime
          < ((i.1 : Int) - (s._errorStateDetectedMillis : Int)) % 4294967296 := by
        rw [← hs.2.2.2, hc2]
        simp
      simp [hn]
    · have hy := hs.2.2.2.mp hc2
      rw [run_keeps_true d is _ hc2]
      simp [hy]

/-- Claim C3, as the code has it.  From a tentative state (`_errorActive` set, not
confirmed, first detection stamped at `t0 = _errorStateDetectedMillis`) and with a
fault condition firing in every service cycle of a run, the confirmed flag is set
after the run if and only if some cycle of the run had a clock value `t` with
`(t - t0) mod 2^32` strictly greater than `_maxErrorActiveTime`. -/
theorem confirmation_needs_strictly_more_than_delay (d : ℚ) (ins : List (Nat × ℚ)) :
    ∀ s : TemperatureSensorHandler,
      s._errorActive = true → s.SensorInErrorState = false →
      0 ≤ s._maxErrorActiveTime → s._maxErrorActiveTime < 2147483648 →
      s.faultPersists d ins = true →
      ((s.run d ins).SensorInErrorState = true ↔
        ∃ i ∈ ins, s._maxErrorActiveTime
          < ((i.1 : Int) - (s._errorStateDetectedMillis : Int)) % 4294967296) :=
  run_confirms_iff d ins

/-- Claim C8, as the code has it.  An invocation of `ReadTemperatureSensorDallas`
that accepts a value (above `DEVICE_DISCONNECTED_C`) does not issue a request:
afterwards `_dataRequested` is false and `_previousRequestMillis` is unchanged, and
the following call issues exactly one request, without a read, stamps
`_previousRequestMillis` and sets `_dataRequested`.  An invocation that reads a
value at or below `DEVICE_DISCONNECTED_C` issues the next request itself, after the
read.  With a request pending whose wait has not elapsed nothing is issued, and no
invocation issues more than one request. -/
theorem Dallas_rearming (d : ℚ) (s : TemperatureSensorHandler) (now : Nat) (tempC : ℚ)
    (now2 : Nat) (tempC2 : ℚ) :
    (s._dataRequested = true →
      elapsedExceeds now s._previousRequestMillis s._waitTime = true → tempC > d →
      (s.ReadTemperatureSensorDallas d now tempC).1._dataRequested = false ∧
      (s.ReadTemperatureSensorDallas d now tempC).2 = [Event.getTempCByIndex] ∧
      (s.ReadTemperatureSensorDallas d now tempC).1._previousRequestMillis
        = s._previousRequestMillis ∧
      ((s.ReadTemperatureSensorDallas d now tempC).1.ReadTemperatureSensorDallas d now2 tempC2).2
        = [Event.requestTemperatures] ∧
      ((s.ReadTemperatureSensorDallas d now tempC).1.ReadTemperatureSensorDallas d now2
        tempC2).1._previousRequestMillis = now2 ∧
      ((s.ReadTemperatureSensorDallas d now tempC).1.ReadTemperatureSensorDallas d now2
        tempC2).1._dataRequested = true) ∧
    (s._dataRequested = true →
      elapsedExceeds now s._previousRequestMillis s._waitTime = true → tempC ≤ d →
      (s.ReadTemperatureSensorDallas d now tempC).2
        = [Event.getTempCByIndex, Event.requestTemperatures] ∧
      (s.ReadTemperatureSensorDallas d now tempC).1._previousRequestMillis = now ∧
      (s.ReadTemperatureSensorDallas d now tempC).1._dataRequested = true) ∧
    (s._dataRequested = true →
      elapsedExceeds now s._previousRequestMillis s._waitTime = false →
      s.ReadTemperatureSensorDallas d now tempC = (s, [])) ∧
    (requests (s.ReadTemperatureSensorDallas d now tempC).2).length ≤ 1 := by
  refine ⟨?_, ?_, ?_, ?_⟩
  · intro hreq hel hacc
    have hnext : (s.ReadTemperatureSensorDallas d now tempC).1._dataRequested = false := by
      rw [Dallas_accept d s now tempC hreq hel hacc]
    rw [Dallas_idle d _ now2 tempC2 hnext, Dallas_accept d s now tempC hreq hel hacc]
    simp
  · intro hreq hel hrej
    rw [Dallas_reject d s now tempC hreq hel hrej]
    simp
  · intro hreq hel
    exact Dallas_waiting d s now tempC hreq hel
  · cases hreq : s._dataRequested
    · rw [Dallas_idle d s now tempC hreq]
      simp [requests]
    · cases hel : elapsedExceeds now s._previousRequestMillis s._waitTime
      · rw [Dallas_waiting d s now tempC hreq hel]
        simp [requests]
      · rcases lt_or_le d tempC with hacc | hrej
        · rw [Dallas_accept d s now tempC hreq hel hacc]
          simp [requests]
        · rw [Dallas_reject d s now tempC hreq hel hrej]
          simp [requests]

/-- Claim C9.  Every elapsed-time test of the pipeline is `elapsedExceeds` (the
collect test of `ReadTemperatureSensorDallas` and the tick test of
`ReadTemperatureSensorTSIC` against `_waitTime`, the confirmation test against
`_maxErrorActiveTime` and the log test against `_errorLogInterval`).  For every
stamp `t`, every elapsed time `d < 2^32` and every non-negative `int` threshold,
with the clock at `(t + d) mod 2^32` the test succeeds if and only if
`d > threshold`, whether or not the clock has wrapped. -/
theorem elapsedExceeds_wraparound (t d : Nat) (threshold : Int) (hd : d < 4294967296)
    (h0 : 0 ≤ threshold) (h1 : threshold < 2147483648) :
    elapsedExceeds ((t + d) % 4294967296) t threshold = true ↔ threshold < (d : Int) := by
  unfold elapsedExceeds
  rw [decide_eq_true_eq, u32sub_add_mod t d hd, ← Int.ofNat_lt,
    toU32_of_nonneg threshold h0 (by omega)]

/-! ## Callback invocations of a service cycle -/

theorem CheckErrors_callbacks (s : TemperatureSensorHandler) (now : Nat) :
    callbacks (s.CheckErrors now).2 =
      (if s.SensorInErrorState = false ∧ (s.CheckErrors now).1.SensorInErrorState = true
        then [Event.callback s.Temperature s.ChangeRate true] else []) ∧
    (s.CheckErrors now).1.Temperature = s.Temperature ∧
    (s.CheckErrors now).1.ChangeRate = s.ChangeRate ∧
    (s.CheckErrors now).1._newData = s._newData := by
  cases hc : s.SensorInErrorState
  · cases hf : s.errorFound
    · rw [CheckErrors_noFault s now hf]
      simp [hc, callbacks]
    · cases ha : s._errorActive
      · rw [CheckErrors_firstDetection s now ha hc hf]
        simp [hc, callbacks]
      · cases he : elapsedExceeds now s._errorStateDetectedMillis s._maxErrorActiveTime
        · cases hl : elapsedExceeds now s._errorLogLastWritten s._errorLogInterval
          · rw [CheckErrors_wait s now ha hc hf he hl]
            simp [hc, callbacks]
          · rw [CheckErrors_relog s now ha hc hf he hl]
            simp [hc, callbacks]
        · rw [CheckErrors_confirm s now ha hc hf he]
          simp [callbacks]
  · cases hf : s.errorFound
    · rw [CheckErrors_noFault s now hf]
      simp [callbacks]
    · rw [CheckErrors_latched s now hc hf]
      simp [callbacks]

theorem ReadTemperatureSensorTSIC_newData (s : TemperatureSensorHandler) (now : Nat)
    (tempC : ℚ) :
    (s.ReadTemperatureSensorTSIC now tempC).1._newData = s._newData ∧
    callbacks (s.ReadTemperatureSensorTSIC now tempC).2 = [] := by
  unfold TemperatureSensorHandler.ReadTemperatureSensorTSIC
  split
  · simp only []
    split <;> simp [callbacks]
  · simp [callbacks]

theorem readSensor_newData (d : ℚ) (s : TemperatureSensorHandler) (now : Nat) (tempC : ℚ)
    (hn : s._newData = false) :
    (s.readSensor d now tempC).1._newData = s.acceptsReading d now tempC ∧
    callbacks (s.readSensor d now tempC).2 = [] := by
  unfold TemperatureSensorHandler.acceptsReading
  cases hT : s._sensorType
  · rw [readSensor_dallas d s now tempC hT]
    cases hreq : s._dataRequested
    · rw [Dallas_idle d s now tempC hreq]
      simp [hn, callbacks]
    · cases hel : elapsedExceeds now s._previousRequestMillis s._waitTime
      · rw [Dallas_waiting d s now tempC hreq hel]
        simp [hn, callbacks]
      · rcases lt_or_le d tempC with hacc | hrej
        · rw [Dallas_accept d s now tempC hreq hel hacc]
          simp [callbacks, hacc]
        · rw [Dallas_reject d s now tempC hreq hel hrej]
          simp [hn, callbacks, not_lt.mpr hrej]
  · rw [readSensor_tsic d s now tempC hT]
    have h := ReadTemperatureSensorTSIC_newData s now tempC
    rw [h.1, h.2, hn]
    simp

theorem readSensor_ChangeRate (d : ℚ) (s : TemperatureSensorHandler) (now : Nat)
    (tempC : ℚ) : (s.readSensor d now tempC).1.ChangeRate = s.ChangeRate := by
  cases hT : s._sensorType
  · rw [readSensor_dallas d s now tempC hT]
    cases hreq : s._dataRequested
    · rw [Dallas_idle d s now tempC hreq]
    · cases hel : elapsedExceeds now s._previousRequestMillis s._waitTime
      · rw [Dallas_waiting d s now tempC hreq hel]
      · rcases lt_or_le d tempC with hacc | hrej
        · rw [Dallas_accept d s now tempC hreq hel hacc]
        · rw [Dallas_reject d s now tempC hreq hel hrej]
  · rw [readSensor_tsic d s now tempC hT]
    unfold TemperatureSensorHandler.ReadTemperatureSensorTSIC
    split
    · simp only []
      split <;> simp
    · simp

theorem callbacks_append (a b : List Event) :
    callbacks (a ++ b) = callbacks a ++ callbacks b := by
  unfold callbacks
  exact List.filter_append a b

/-- Claim C10.  In a `RefreshSensorData` cycle entered with `_newData` false (as
every cycle leaves it), the callback invocations are, in order: one with
`(Temperature, ChangeRate before the cycle, true)` if the confirmed flag went from
false to true in the cycle, then one with `(Temperature, ChangeRate, SensorInErrorState)`
if a new reading was accepted in the cycle; no others.  So their number is 0, 1 or 2,
each passes the current `Temperature` and the current `SensorInErrorState`, and the
new-data invocation passes the `ChangeRate` that `CalculateMovingAverage` computed in
the cycle. -/
theorem RefreshSensorData_notifications (d : ℚ) (s : TemperatureSensorHandler) (now : Nat)
    (tempC : ℚ) (hn : s._newData = false) :
    callbacks (s.RefreshSensorData d now tempC).2 =
      (if s.SensorInErrorState = false ∧
          (s.RefreshSensorData d now tempC).1.SensorInErrorState = true
        then [Event.callback (s.RefreshSensorData d now tempC).1.Temperature s.ChangeRate true]
        else []) ++
      (if s.acceptsReading d now tempC = true
        then [Event.callback (s.RefreshSensorData d now tempC).1.Temperature
          (s.RefreshSensorData d now tempC).1.ChangeRate
          (s.RefreshSensorData d now tempC).1.SensorInErrorState]
        else []) ∧
    (callbacks (s.RefreshSensorData d now tempC).2).length =
      (if s.acceptsReading d now tempC = true then 1 else 0) +
      (if s.SensorInErrorState = false ∧
          (s.RefreshSensorData d now tempC).1.SensorInErrorState = true then 1 else 0) ∧
    (∀ e ∈ callbacks (s.RefreshSensorData d now tempC).2,
      ∃ rate, e = Event.callback (s.RefreshSensorData d now tempC).1.Temperature rate
        (s.RefreshSensorData d now tempC).1.SensorInErrorState) ∧
    (s.acceptsReading d now tempC = true →
      (s.RefreshSensorData d now tempC).1.ChangeRate =
        (((s.readSensor d now tempC).1.CheckErrors now).1.CalculateMovingAverage now).ChangeRate) ∧
    (s.RefreshSensorData d now tempC).1._newData = false := by
  have h1 := readSensor_newData d s now tempC hn
  have h1f := readSensor_fault_fields d s now tempC
  have h1c := readSensor_ChangeRate d s now tempC
  have h2 := CheckErrors_callbacks (s.readSensor d now tempC).1 now
  have h3 := publishNewData_fault_fields ((s.readSensor d now tempC).1.CheckErrors now).1 now
  have hcm := CalculateMovingAverage_fault_fields
    ((s.readSensor d now tempC).1.CheckErrors now).1 now
  have hnd : ((s.readSensor d now tempC).1.CheckErrors now).1._newData
      = s.acceptsReading d now tempC := h2.2.2.2.trans h1.1
  have hmain : callbacks (s.RefreshSensorData d now tempC).2 =
      (if s.SensorInErrorState = false ∧
          (s.RefreshSensorData d now tempC).1.SensorInErrorState = true
        then [Event.callback (s.RefreshSensorData d now tempC).1.Temperature s.ChangeRate true]
        else []) ++
      (if s.acceptsReading d now tempC = true
        then [Event.callback (s.RefreshSensorData d now tempC).1.Temperature
          (s.RefreshSensorData d now tempC).1.ChangeRate
          (s.RefreshSensorData d now tempC).1.SensorInErrorState]
        else []) := by
    unfold TemperatureSensorHandler.RefreshSensorData
    simp only []
    rw [callbacks_append, callbacks_append, h1.2, h2.1, h3.1, h3.2.2.2.2, h2.2.1, h1f.1, h1c,
      List.nil_append]
    congr 1
    unfold TemperatureSensorHandler.publishNewData
    rw [hnd]
    cases hacc : s.acceptsReading d now tempC
    · simp [callbacks]
    · simp [callbacks, hcm.1, hcm.2.2.2.2, h2.2.1]
  have hnew : (s.RefreshSensorData d now tempC).1._newData = false := by
    unfold TemperatureSensorHandler.RefreshSensorData TemperatureSensorHandler.publishNewData
    simp only []
    rw [hnd]
    cases hacc : s.acceptsReading d now tempC
    · simpa using hnd.trans hacc
    · simp
  refine ⟨hmain, ?_, ?_, ?_, hnew⟩
  · rw [hmain]
    split <;> split <;> simp
  · intro e he
    rw [hmain] at he
    rcases List.mem_append.mp he with h | h
    · split at h
      · rename_i hconf
        rw [List.mem_singleton] at h
        exact ⟨s.ChangeRate, by rw [h, hconf.2]⟩
      · simp at h
    · split at h
      · rw [List.mem_singleton] at h
        exact ⟨_, h⟩
      · simp at h
  · intro hacc
    unfold TemperatureSensorHandler.RefreshSensorData TemperatureSensorHandler.publishNewData
    simp only []
    rw [hnd, hacc]
    simp

/-! ## The theorems at the concrete run -/

theorem SensorInErrorState_is_latched_witness :
    confirmedState.SensorInErrorState = true ∧
    (confirmedState.RefreshSensorData disconnectedC 15000 20).1.SensorInErrorState = true ∧
    (confirmedState.SetSensorParams 10 90).SensorInErrorState = true :=
  ⟨by decide!,
    SensorInErrorState_is_latched disconnectedC confirmedState 15000 20 10 90 (by decide!)⟩

theorem CheckErrors_confirms_iff_witness :
    beforeConfirm._maxErrorActiveTime = 5000 ∧
    beforeConfirm._errorStateDetectedMillis = 8000 ∧
    (beforeConfirm.SensorInErrorState = false ∧
      (beforeConfirm.CheckErrors 14000).1.SensorInErrorState = true) :=
  ⟨by decide!, by decide!,
    ((CheckErrors_confirms_iff beforeConfirm 14000).1 (by decide!) (by decide!)).mpr
      ⟨by decide!, by decide!, by decide!, by decide!⟩⟩

/-- Claim C3 fails at the boundary.  In the run with `_maxErrorActiveTime = 5000`
and the clock advancing 1000 ms per cycle, first detection is stamped at 8000 ms
and a fault condition fires in each of the next five cycles; the fifth of them, at
13000 ms, has `t - t0 = 5000`, and after it the confirmed flag is still false. -/
theorem not_confirmed_at_exact_delay :
    tentativeState._errorActive = true ∧
    tentativeState.SensorInErrorState = false ∧
    tentativeState._errorStateDetectedMillis = 8000 ∧
    tentativeState._maxErrorActiveTime = 5000 ∧
    tentativeState.faultPersists disconnectedC persistCycles = true ∧
    persistCycles.length = 5 ∧
    persistCycles.getLast? = some (13000, -127) ∧
    (13000 : Int) - 8000 ≥ 5000 ∧
    (tentativeState.run disconnectedC persistCycles).SensorInErrorState = false := by
  decide!

theorem confirmation_needs_strictly_more_than_delay_witness :
    (tentativeState.run disconnectedC persistCycles).SensorInErrorState = false ∧
    (tentativeState.run disconnectedC (persistCycles ++ [sixthCycle])).SensorInErrorState
      = true :=
  ⟨Bool.eq_false_iff.mpr (fun h =>
      absurd ((confirmation_needs_strictly_more_than_delay disconnectedC persistCycles
        tentativeState (by decide!) (by decide!) (by decide!) (by decide!) (by decide!)).mp h)
        (by decide!)),
    (confirmation_needs_strictly_more_than_delay disconnectedC (persistCycles ++ [sixthCycle])
      tentativeState (by decide!) (by decide!) (by decide!) (by decide!) (by decide!)).mpr
      ⟨sixthCycle, by decide!, by decide!⟩⟩

theorem deviation_sets_tentative_witness :
    beforeDeviation.Temperature = 20 ∧
    beforeDeviation._errorActive = false ∧
    (beforeDeviation.RefreshSensorData disconnectedC 8000 30).1.Temperature = 30 ∧
    (beforeDeviation.RefreshSensorData disconnectedC 8000 30).1._errorActive = true ∧
    (beforeDeviation.RefreshSensorData disconnectedC 8000 30).1._errorStateDetectedMillis
      = 8000 :=
  have h := deviation_sets_tentative disconnectedC beforeDeviation 8000 30 (by decide!)
    (by decide!) (by decide!) (by decide!) (by decide!)
    (by decide!) (by decide!)
  ⟨by decide!, by decide!, h.1, h.2.1, h.2.2 (by decide!)⟩

theorem CheckErrors_self_clear_witness :
    afterSecondThirty._errorActive = true ∧
    (afterSecondThirty.CheckErrors 10000).1._errorActive = false ∧
    callbacks (afterSecondThirty.CheckErrors 10000).2 = [] :=
  have h := CheckErrors_self_clear afterSecondThirty 10000 (by decide!)
  ⟨by decide!, h.1, h.2.2.2.2.2.2⟩

theorem Dallas_disconnect_sentinel_witness :
    ((armedState.ReadTemperatureSensorDallas disconnectedC 2000 (-127)).1.Temperature
        = armedState.Temperature ∧
      (armedState.ReadTemperatureSensorDallas disconnectedC 2000 (-127)).1._sensorBadReading
        = true) ∧
    ((armedState.ReadTemperatureSensorDallas disconnectedC 2000 20).1.Temperature = 20 ∧
      (armedState.ReadTemperatureSensorDallas disconnectedC 2000 20).1._newData = true) :=
  have hlo := (Dallas_disconnect_sentinel disconnectedC armedState 2000 (-127) (by decide!)
    (by decide!)).1 (by decide!)
  have hhi := (Dallas_disconnect_sentinel disconnectedC armedState 2000 20 (by decide!)
    (by decide!)).2 (by decide!)
  ⟨⟨hlo.1, hlo.2.2.2.2⟩, ⟨hhi.1, hhi.2.2⟩⟩

theorem TSIC_tick_postcondition_witness :
    tsicStart._waitTime = 400 ∧
    (tsicStart.ReadTemperatureSensorTSIC 401 25).1.Temperature = 25 ∧
    (tsicStart.ReadTemperatureSensorTSIC 401 221).1.Temperature = tsicStart.Temperature ∧
    (tsicStart.ReadTemperatureSensorTSIC 401 25).1._sensorBadReading = true :=
  have h25 := TSIC_tick_postcondition tsicStart 401 25 (by decide!) (by decide!)
  have h221 := TSIC_tick_postcondition tsicStart 401 221 (by decide!) (by decide!)
  ⟨by decide!, h25.1 (by decide!), h221.2.1 (Or.inl rfl), h25.2.2.1⟩

/-- Claim C8 fails for an invalid read.  With the first request pending since
1000 ms, the call at 2000 ms reads the disconnect value: the invocation consumes
the result and issues the next request itself, so afterwards `_dataRequested` is
true and `_previousRequestMillis` is 2000. -/
theorem Dallas_rearms_in_the_invocation_of_an_invalid_read :
    armedState._dataRequested = true ∧
    armedState._previousRequestMillis = 1000 ∧
    elapsedExceeds 2000 armedState._previousRequestMillis armedState._waitTime = true ∧
    (armedState.ReadTemperatureSensorDallas disconnectedC 2000 (-127)).2
      = [Event.getTempCByIndex, Event.requestTemperatures] ∧
    (armedState.ReadTemperatureSensorDallas disconnectedC 2000 (-127)).1._dataRequested
      = true ∧
    (armedState.ReadTemperatureSensorDallas disconnectedC 2000 (-127)).1._previousRequestMillis
      = 2000 := by
  decide!

theorem Dallas_rearming_witness :
    (armedState.ReadTemperatureSensorDallas disconnectedC 2000 20).1._dataRequested = false ∧
    ((armedState.ReadTemperatureSensorDallas disconnectedC 2000 20).1.ReadTemperatureSensorDallas
      disconnectedC 3000 20).2 = [Event.requestTemperatures] ∧
    (armedState.ReadTemperatureSensorDallas disconnectedC 2000 (-127)).1._dataRequested
      = true ∧
    armedState.ReadTemperatureSensorDallas disconnectedC 1200 20 = (armedState, []) :=
  have h := Dallas_rearming disconnectedC armedState 2000 20 3000 20
  have hb := Dallas_rearming disconnectedC armedState 2000 (-127) 3000 20
  have hw := Dallas_rearming disconnectedC armedState 1200 20 3000 20
  have hv := h.1 (by decide!) (by decide!) (by decide!)
  ⟨hv.1, hv.2.2.2.1, (hb.2.1 (by decide!) (by decide!) (by decide!)).2.2,
    hw.2.2.1 (by decide!) (by decide!)⟩

theorem elapsedExceeds_wraparound_witness :
    (4294967000 + 1000) % 4294967296 = 704 ∧
    elapsedExceeds 704 4294967000 412 = true ∧
    elapsedExceeds 704 4294967000 1000 = false :=
  ⟨by decide,
    (elapsedExceeds_wraparound 4294967000 1000 412 (by decide) (by decide) (by decide)).mpr
      (by decide),
    Bool.eq_false_iff.mpr (fun h =>
      absurd ((elapsedExceeds_wraparound 4294967000 1000 1000 (by decide) (by decide)
        (by decide)).mp h) (by decide))⟩

theorem RefreshSensorData_notifications_witness :
    beforeDeviation.acceptsReading disconnectedC 8000 30 = true ∧
    (callbacks (beforeDeviation.RefreshSensorData disconnectedC 8000 30).2).length = 1 ∧
    (callbacks (armedState.RefreshSensorData disconnectedC 1200 20).2).length = 0 ∧
    (callbacks ((tentativeState.run disconnectedC [(9000, 30)]).RefreshSensorData
      disconnectedC 14000 50).2).length = 2 :=
  have h := RefreshSensorData_notifications disconnectedC beforeDeviation 8000 30 (by decide!)
  have h0 := RefreshSensorData_notifications disconnectedC armedState 1200 20 (by decide!)
  have h2 := RefreshSensorData_notifications disconnectedC
    (tentativeState.run disconnectedC [(9000, 30)]) 14000 50 (by decide!)
  ⟨by decide!, h.2.1.trans (by decide!), h0.2.1.trans (by decide!), h2.2.1.trans (by decide!)⟩

/-! ## The write cursor of `CalculateMovingAverage` -/

theorem CalculateMovingAverage_valueIndex (s : TemperatureSensorHandler) (now : Nat) :
    (s.CalculateMovingAverage now).valueIndex
      = if s.valueIndex ≥ 14 then 0 else s.valueIndex + 1 := by
  unfold TemperatureSensorHandler.CalculateMovingAverage numValues
  simp only []
  split <;> simp

theorem CalculateMovingAverage_lengths (s : TemperatureSensorHandler) (now : Nat)
    (h : s.movingAverageInitialized = true →
      s.tempValues.length = 15 ∧ s.timeValues.length = 15 ∧ s.tempChangeRates.length = 15) :
    (s.CalculateMovingAverage now).movingAverageInitialized = true ∧
    (s.CalculateMovingAverage now).tempValues.length = 15 ∧
    (s.CalculateMovingAverage now).timeValues.length = 15 ∧
    (s.CalculateMovingAverage now).tempChangeRates.length = 15 := by
  unfold TemperatureSensorHandler.CalculateMovingAverage numValues arrSet
  simp only []
  cases hi : s.movingAverageInitialized
  · simp
  · simp only [hi, Bool.true_eq_false, if_false, List.length_set, true_and]
    exact h hi

theorem feedAll_cursor (rs : List (ℚ × Nat)) :
    ∀ s : TemperatureSensorHandler, 0 ≤ s.valueIndex → s.valueIndex < 15 →
      (s.feedAll rs).valueIndex = (s.valueIndex + (rs.length : Int)) % 15 := by
  induction rs with
  | nil =>
    intro s h0 h1
    simp only [TemperatureSensorHandler.feedAll, List.length_nil]
    omega
  | cons r rs ih =>
    intro s h0 h1
    have hv : (s.feedReading r).valueIndex
        = if s.valueIndex ≥ 14 then 0 else s.valueIndex + 1 := by
      unfold TemperatureSensorHandler.feedReading
      rw [CalculateMovingAverage_valueIndex]
    have hr : 0 ≤ (s.feedReading r).valueIndex ∧ (s.feedReading r).valueIndex < 15 := by
      rw [hv]
      split <;> omega
    unfold TemperatureSensorHandler.feedAll
    rw [ih _ hr.1 hr.2, hv, List.length_cons]
    split <;> omega

theorem feedAll_lengths (rs : List (ℚ × Nat)) :
    ∀ s : TemperatureSensorHandler,
      (s.movingAverageInitialized = true →
        s.tempValues.length = 15 ∧ s.timeValues.length = 15 ∧
          s.tempChangeRates.length = 15) →
      ((s.feedAll rs).movingAverageInitialized = true →
        (s.feedAll rs).tempValues.length = 15 ∧ (s.feedAll rs).timeValues.length = 15 ∧
          (s.feedAll rs).tempChangeRates.length = 15) := by
  induction rs with
  | nil => intro s h; exact h
  | cons r rs ih =>
    intro s h
    unfold TemperatureSensorHandler.feedAll
    apply ih
    intro _
    unfold TemperatureSensorHandler.feedReading
    exact (CalculateMovingAverage_lengths { s with Temperature := r.1 } r.2 h).2

theorem feedAll_lengths_eq (rs : List (ℚ × Nat)) :
    ∀ s : TemperatureSensorHandler,
      s.tempValues.length = 15 → s.timeValues.length = 15 → s.tempChangeRates.length = 15 →
      (s.feedAll rs).tempValues.length = 15 ∧ (s.feedAll rs).timeValues.length = 15 ∧
        (s.feedAll rs).tempChangeRates.length = 15 := by
  induction rs with
  | nil => intro s h1 h2 h3; exact ⟨h1, h2, h3⟩
  | cons r rs ih =>
    intro s h1 h2 h3
    have h := CalculateMovingAverage_lengths { s with Temperature := r.1 } r.2
      (fun _ => ⟨h1, h2, h3⟩)
    unfold TemperatureSensorHandler.feedAll
    exact ih _ h.2.1 h.2.2.1 h.2.2.2

theorem CalculateMovingAverage_writes (s : TemperatureSensorHandler) (now : Nat)
    (h0 : 0 ≤ s.valueIndex) (h1 : s.valueIndex < 15)
    (h : s.movingAverageInitialized = true →
      s.tempValues.length = 15 ∧ s.timeValues.length = 15) :
    arrGet 0 (s.CalculateMovingAverage now).tempValues s.valueIndex = s.Temperature ∧
    arrGet 0 (s.CalculateMovingAverage now).timeValues s.valueIndex = now := by
  have hn : s.valueIndex.toNat < 15 := by omega
  unfold TemperatureSensorHandler.CalculateMovingAverage numValues arrSet arrGet
  simp only []
  cases hi : s.movingAverageInitialized
  · simp [List.getD_eq_getElem?_getD, List.getElem?_set, hn]
  · have hl := h hi
    simp [List.getD_eq_getElem?_getD, List.getElem?_set, hn, hl.1, hl.2]

/-- Claim C14, as the code has it.  The write cursor starts at 1 (the initializer
of `valueIndex`).  From a freshly constructed smoothing engine, after exactly 14
invocations of `CalculateMovingAverage` the cursor is 0, so that the 15th reading
is written into slot 0, and after exactly 15 invocations the cursor is back at 1,
so that the 16th reading is written into slot 1. -/
theorem cursor_returns_to_start_after_fifteen (s : TemperatureSensorHandler)
    (rs : List (ℚ × Nat)) (r : ℚ × Nat)
    (hinit : s.movingAverageInitialized = false) (hidx : s.valueIndex = 1) :
    (rs.length = 14 →
      (s.feedAll rs).valueIndex = 0 ∧
      arrGet 0 ((s.feedAll rs).feedReading r).tempValues 0 = r.1) ∧
    (rs.length = 15 →
      (s.feedAll rs).valueIndex = 1 ∧
      arrGet 0 ((s.feedAll rs).feedReading r).tempValues 1 = r.1) := by
  have hc := feedAll_cursor rs s (by omega) (by omega)
  have hl := feedAll_lengths rs s (by rw [hinit]; simp)
  have hw : ∀ v : Int, (s.feedAll rs).valueIndex = v → 0 ≤ v → v < 15 →
      arrGet 0 ((s.feedAll rs).feedReading r).tempValues v = r.1 := by
    intro v hv h0 h1
    have h := CalculateMovingAverage_writes { (s.feedAll rs) with Temperature := r.1 } r.2
      (by simpa [hv] using h0) (by simpa [hv] using h1)
      (fun hi => ⟨(hl hi).1, (hl hi).2.1⟩)
    unfold TemperatureSensorHandler.feedReading
    simpa [hv] using h.1
  constructor
  · intro hlen
    have hv : (s.feedAll rs).valueIndex = 0 := by rw [hc, hidx, hlen]; rfl
    exact ⟨hv, hw 0 hv (by omega) (by omega)⟩
  · intro hlen
    have hv : (s.feedAll rs).valueIndex = 1 := by rw [hc, hidx, hlen]; rfl
    exact ⟨hv, hw 1 hv (by omega) (by omega)⟩

/-- Claim C18.  In every state reached from an initial smoothing engine (cursor 1,
three arrays of 15 elements) by any number of invocations of
`CalculateMovingAverage`, the cursor lies in `[0, 15)`, the neighbour slot used for
the rate (0 when the cursor is 14, cursor + 1 otherwise) lies in `[0, 15)`, and the
three arrays still have 15 elements. -/
theorem history_indices_in_range (s : TemperatureSensorHandler) (rs : List (ℚ × Nat))
    (hidx : s.valueIndex = 1) (ht : s.tempValues.length = 15)
    (hm : s.timeValues.length = 15) (hr : s.tempChangeRates.length = 15) :
    0 ≤ (s.feedAll rs).valueIndex ∧ (s.feedAll rs).valueIndex < 15 ∧
    0 ≤ (if (s.feedAll rs).valueIndex = numValues - 1 then 0
      else (s.feedAll rs).valueIndex + 1) ∧
    (if (s.feedAll rs).valueIndex = numValues - 1 then 0
      else (s.feedAll rs).valueIndex + 1) < 15 ∧
    (s.feedAll rs).tempValues.length = 15 ∧
    (s.feedAll rs).timeValues.length = 15 ∧
    (s.feedAll rs).tempChangeRates.length = 15 := by
  have hc := feedAll_cursor rs s (by omega) (by omega)
  have hl := feedAll_lengths_eq rs s ht hm hr
  unfold numValues
  refine ⟨by omega, by omega, ?_, ?_, hl.1, hl.2.1, hl.2.2⟩
  · split <;> omega
  · split <;> omega

/-! ## The configured limits -/

theorem CheckErrors_limits (s : TemperatureSensorHandler) (now : Nat) :
    (s.CheckErrors now).1._lLim = s._lLim ∧ (s.CheckErrors now).1._uLim = s._uLim ∧
    (s.CheckErrors now).1._sensorBadReading = s._sensorBadReading ∧
    (s.CheckErrors now).1._sensorType = s._sensorType := by
  cases hf : s.errorFound
  · rw [CheckErrors_noFault s now hf]
    simp
  · cases hc : s.SensorInErrorState
    · cases ha : s._errorActive
      · rw [CheckErrors_firstDetection s now ha hc hf]
        simp
      · cases he : elapsedExceeds now s._errorStateDetectedMillis s._maxErrorActiveTime
        · cases hl : elapsedExceeds now s._errorLogLastWritten s._errorLogInterval
          · rw [CheckErrors_wait s now ha hc hf he hl]
            simp
          · rw [CheckErrors_relog s now ha hc hf he hl]
            simp
        · rw [CheckErrors_confirm s now ha hc hf he]
          simp
    · rw [CheckErrors_latched s now hc hf]
      simp

theorem ReadTemperatureSensorTSIC_limits (s : TemperatureSensorHandler) (now : Nat)
    (tempC : ℚ) :
    (s.ReadTemperatureSensorTSIC now tempC).1._lLim = s._lLim ∧
    (s.ReadTemperatureSensorTSIC now tempC).1._uLim = s._uLim ∧
    (s.ReadTemperatureSensorTSIC now tempC).1._sensorType = s._sensorType := by
  unfold TemperatureSensorHandler.ReadTemperatureSensorTSIC
  split
  · simp only []
    split <;> simp
  · simp

theorem readSensor_limits (d : ℚ) (s : TemperatureSensorHandler) (now : Nat) (tempC : ℚ) :
    (s.readSensor d now tempC).1._lLim = s._lLim ∧
    (s.readSensor d now tempC).1._uLim = s._uLim ∧
    (s.readSensor d now tempC).1._sensorType = s._sensorType := by
  cases hT : s._sensorType
  · rw [readSensor_dallas d s now tempC hT]
    cases hreq : s._dataRequested
    · rw [Dallas_idle d s now tempC hreq]
      simp [hT]
    · cases hel : elapsedExceeds now s._previousRequestMillis s._waitTime
      · rw [Dallas_waiting d s now tempC hreq hel]
        simp [hT]
      · rcases lt_or_le d tempC with hacc | hrej
        · rw [Dallas_accept d s now tempC hreq hel hacc]
          simp [hT]
        · rw [Dallas_reject d s now tempC hreq hel hrej]
          simp [hT]
  · rw [readSensor_tsic d s now tempC hT]
    have h := ReadTemperatureSensorTSIC_limits s now tempC
    exact ⟨h.1, h.2.1, h.2.2.trans hT⟩

theorem CalculateMovingAverage_limits (s : TemperatureSensorHandler) (now : Nat) :
    (s.CalculateMovingAverage now)._lLim = s._lLim ∧
    (s.CalculateMovingAverage now)._uLim = s._uLim ∧
    (s.CalculateMovingAverage now)._sensorBadReading = s._sensorBadReading ∧
    (s.CalculateMovingAverage now)._sensorType = s._sensorType := by
  unfold TemperatureSensorHandler.CalculateMovingAverage
  simp only []
  split <;> simp

theorem publishNewData_limits (s : TemperatureSensorHandler) (now : Nat) :
    (s.publishNewData now).1._lLim = s._lLim ∧ (s.publishNewData now).1._uLim = s._uLim ∧
    (s.publishNewData now).1._sensorBadReading = s._sensorBadReading ∧
    (s.publishNewData now).1._sensorType = s._sensorType := by
  have h := CalculateMovingAverage_limits s now
  unfold TemperatureSensorHandler.publishNewData
  split
  · exact h
  · simp

theorem RefreshSensorData_limits (d : ℚ) (s : TemperatureSensorHandler) (now : Nat)
    (tempC : ℚ) :
    (s.RefreshSensorData d now tempC).1._lLim = s._lLim ∧
    (s.RefreshSensorData d now tempC).1._uLim = s._uLim ∧
    (s.RefreshSensorData d now tempC).1._sensorType = s._sensorType := by
  have h1 := readSensor_limits d s now tempC
  have h2 := CheckErrors_limits (s.readSensor d now tempC).1 now
  have h3 := publishNewData_limits ((s.readSensor d now tempC).1.CheckErrors now).1 now
  unfold TemperatureSensorHandler.RefreshSensorData
  simp only []
  exact ⟨h3.1.trans (h2.1.trans h1.1), h3.2.1.trans (h2.2.1.trans h1.2.1),
    h3.2.2.2.trans (h2.2.2.2.trans h1.2.2)⟩

theorem Init_limits (s : TemperatureSensorHandler) (gpio : Int) (type : SensorType)
    (convMillis : Nat) (deviceCount : Int) (zacBegin : Bool) :
    (s.Init gpio type convMillis deviceCount zacBegin)._lLim = s._lLim ∧
    (s.Init gpio type convMillis deviceCount zacBegin)._uLim = s._uLim := by
  unfold TemperatureSensorHandler.Init
  cases type <;> simp

/-- Claim C15, as the code has it.  `_lLim < _uLim` holds after construction, and
`Init` and `RefreshSensorData` do not write the limits.  `SetSensorParams` stores
its two arguments unchecked, so after it `_lLim < _uLim` holds if and only if the
arguments satisfy `lower < upper`. -/
theorem limits_ordered_iff_arguments_ordered (d : ℚ) (s : TemperatureSensorHandler)
    (now : Nat) (tempC : ℚ) (gpio : Int) (type : SensorType) (convMillis : Nat)
    (deviceCount : Int) (zacBegin : Bool) (lower upper : ℚ) :
    TemperatureSensorHandler.ctor._lLim < TemperatureSensorHandler.ctor._uLim ∧
    ((s.Init gpio type convMillis deviceCount zacBegin)._lLim = s._lLim ∧
      (s.Init gpio type convMillis deviceCount zacBegin)._uLim = s._uLim) ∧
    ((s.RefreshSensorData d now tempC).1._lLim = s._lLim ∧
      (s.RefreshSensorData d now tempC).1._uLim = s._uLim) ∧
    ((s.SetSensorParams lower upper)._lLim = lower ∧
      (s.SetSensorParams lower upper)._uLim = upper) ∧
    ((s.SetSensorParams lower upper)._lLim < (s.SetSensorParams lower upper)._uLim ↔
      lower < upper) := by
  have hr := RefreshSensorData_limits d s now tempC
  refine ⟨by decide!, Init_limits s gpio type convMillis deviceCount zacBegin,
    ⟨hr.1, hr.2.1⟩, ⟨rfl, rfl⟩, Iff.rfl⟩

/-- Claim C15 fails for `SetSensorParams`.  After construction the limits are 0
and 150; `SetSensorParams(10, 5)` leaves `_lLim = 10` and `_uLim = 5`. -/
theorem SetSensorParams_stores_unordered_limits :
    TemperatureSensorHandler.ctor._lLim < TemperatureSensorHandler.ctor._uLim ∧
    (TemperatureSensorHandler.ctor.SetSensorParams 10 5)._lLim = 10 ∧
    (TemperatureSensorHandler.ctor.SetSensorParams 10 5)._uLim = 5 ∧
    ¬ ((TemperatureSensorHandler.ctor.SetSensorParams 10 5)._lLim
      < (TemperatureSensorHandler.ctor.SetSensorParams 10 5)._uLim) := by
  decide!

/-- Claim C16, as the code has it.  The local `errorFound` of `CheckErrors` is true
if and only if `((_tempAvailable and Temperature <= _lLim) or Temperature >= _uLim)`
or the `float` difference `Temperature - _previousTemperature`, rounded as the
subtraction rounds it, exceeds `_maxDeviationBetweenReadings` in absolute value, or
`_sensorBadReading` or not `_sensorAvailable`.  While no reading has been accepted,
`Temperature <= _lLim` alone does not make it true, and `Temperature >= _uLim`
always does.  With the confirmed flag clear, `CheckErrors` leaves `_errorActive`
equal to `errorFound`. -/
theorem fault_predicate (s : TemperatureSensorHandler) (now : Nat) :
    (s.errorFound = true ↔
      (((s._tempAvailable = true ∧ s.Temperature ≤ s._lLim) ∨ s.Temperature ≥ s._uLim) ∨
        (f32sub s.Temperature s._previousTemperature).abs.gt
          s._maxDeviationBetweenReadings = true ∨
        s._sensorBadReading = true ∨ s._sensorAvailable = false)) ∧
    (s._tempAvailable = false → s.Temperature ≤ s._lLim → s.Temperature < s._uLim →
      (f32sub s.Temperature s._previousTemperature).abs.gt
        s._maxDeviationBetweenReadings = false →
      s._sensorBadReading = false → s._sensorAvailable = true → s.errorFound = false) ∧
    (s.Temperature ≥ s._uLim → s.errorFound = true) ∧
    (s.SensorInErrorState = false → (s.CheckErrors now).1._errorActive = s.errorFound) := by
  have hiff : s.errorFound = true ↔
      (((s._tempAvailable = true ∧ s.Temperature ≤ s._lLim) ∨ s.Temperature ≥ s._uLim) ∨
        (f32sub s.Temperature s._previousTemperature).abs.gt
          s._maxDeviationBetweenReadings = true ∨
        s._sensorBadReading = true ∨ s._sensorAvailable = false) := by
    rw [errorFound_eq]
    unfold TemperatureSensorHandler.outOfLimits TemperatureSensorHandler.tooBigDeviation
    simp only [Bool.or_eq_true, Bool.and_eq_true, decide_eq_true_eq, Bool.not_eq_true',
      or_assoc]
  refine ⟨hiff, ?_, ?_, ?_⟩
  · intro hav _ hhi hdev hbad hsa
    rw [Bool.eq_false_iff]
    intro hf
    rcases hiff.mp hf with (⟨h, _⟩ | h) | h | h | h
    · rw [hav] at h
      exact Bool.false_ne_true h
    · exact absurd hhi (not_lt.mpr h)
    · rw [hdev] at h
      exact Bool.false_ne_true h
    · rw [hbad] at h
      exact Bool.false_ne_true h
    · rw [hsa] at h
      exact Bool.noConfusion h
  · intro h
    exact hiff.mpr (Or.inl (Or.inr h))
  · intro hc
    cases hf : s.errorFound
    · rw [CheckErrors_noFault s now hf]
    · exact (CheckErrors_tentative_of_fault s now hc hf).1

/-! ## The bad-reading flag between collected results -/

/-- Claim C17, as the code has it.  Backend DALLAS, a service cycle in which
`ReadTemperatureSensorDallas` collects no result (the request is still waiting, or
the call only issues a request): no value is read and `_sensorBadReading` keeps the
value it had at entry, through the whole cycle.  So the bad-reading condition fires
in the fault evaluation of that cycle exactly when the flag was set at entry. -/
theorem bad_reading_flag_persists (d : ℚ) (s : TemperatureSensorHandler) (now : Nat)
    (tempC : ℚ) (hT : s._sensorType = SensorType.DALLAS)
    (hno : s.dallasCollects now = false) :
    reads (s.readSensor d now tempC).2 = [] ∧
    (s.readSensor d now tempC).1._sensorBadReading = s._sensorBadReading ∧
    (s.RefreshSensorData d now tempC).1._sensorBadReading = s._sensorBadReading ∧
    (s._sensorBadReading = true → (s.readSensor d now tempC).1.errorFound = true) := by
  have hread : reads (s.readSensor d now tempC).2 = [] ∧
      (s.readSensor d now tempC).1._sensorBadReading = s._sensorBadReading := by
    rw [readSensor_dallas d s now tempC hT]
    unfold TemperatureSensorHandler.dallasCollects at hno
    cases hreq : s._dataRequested
    · rw [Dallas_idle d s now tempC hreq]
      simp [reads]
    · rw [hreq, Bool.true_and] at hno
      rw [Dallas_waiting d s now tempC hreq hno]
      simp [reads]
  have h2 := CheckErrors_limits (s.readSensor d now tempC).1 now
  have h3 := publishNewData_limits ((s.readSensor d now tempC).1.CheckErrors now).1 now
  refine ⟨hread.1, hread.2, ?_, ?_⟩
  · unfold TemperatureSensorHandler.RefreshSensorData
    simp only []
    exact h3.2.2.1.trans (h2.2.2.1.trans hread.2)
  · intro hb
    rw [errorFound_eq, hread.2, hb]
    simp

/-! ## The monitor after confirmation -/

theorem monitorCallbacks_of_confirmed (d : ℚ) (ins : List (Nat × ℚ)) :
    ∀ s : TemperatureSensorHandler, s.SensorInErrorState = true →
      s.monitorCallbacks d ins = [] := by
  induction ins with
  | nil => intro s _; rfl
  | cons i is ih =>
    intro s hc
    have h1 : (s.readSensor d i.1 i.2).1.SensorInErrorState = true :=
      (readSensor_fault_fields d s i.1 i.2).1.trans hc
    have h2 := (CheckErrors_callbacks (s.readSensor d i.1 i.2).1 i.1).1
    unfold TemperatureSensorHandler.monitorCallbacks
    rw [ih _ (RefreshSensorData_keeps_true d s i.1 i.2 hc), h2, h1]
    simp

theorem monitorCallbacks_length (d : ℚ) (ins : List (Nat × ℚ)) :
    ∀ s : TemperatureSensorHandler, (s.monitorCallbacks d ins).length ≤ 1 := by
  induction ins with
  | nil => intro s; simp [TemperatureSensorHandler.monitorCallbacks]
  | cons i is ih =>
    intro s
    have h2 := (CheckErrors_callbacks (s.readSensor d i.1 i.2).1 i.1).1
    have h3 := publishNewData_fault_fields
      ((s.readSensor d i.1 i.2).1.CheckErrors i.1).1 i.1
    have hnext : (s.RefreshSensorData d i.1 i.2).1.SensorInErrorState
        = ((s.readSensor d i.1 i.2).1.CheckErrors i.1).1.SensorInErrorState := by
      unfold TemperatureSensorHandler.RefreshSensorData
      exact h3.1
    unfold TemperatureSensorHandler.monitorCallbacks
    rw [List.length_append, h2]
    cases hc : ((s.readSensor d i.1 i.2).1.CheckErrors i.1).1.SensorInErrorState
    · have := ih (s.RefreshSensorData d i.1 i.2).1
      simpa using this
    · rw [monitorCallbacks_of_confirmed d is _ (hnext.trans hc)]
      split <;> simp

/-- Claim C20.  In a state with `SensorInErrorState` true, `CheckErrors` invokes no
callback, writes no log line and emits nothing else, leaves both time stamps and
`SensorInErrorState` unchanged, and changes at most `_errorActive`, which it can
only clear.  Over any run of service cycles, from any state, `CheckErrors` invokes
the callback at most once. -/
theorem monitor_quiescent_once_confirmed (d : ℚ) (s : TemperatureSensorHandler)
    (now : Nat) (ins : List (Nat × ℚ)) :
    (s.SensorInErrorState = true →
      (s.CheckErrors now).2 = [] ∧
      callbacks (s.CheckErrors now).2 = [] ∧
      logLines (s.CheckErrors now).2 = [] ∧
      (s.CheckErrors now).1._errorStateDetectedMillis = s._errorStateDetectedMillis ∧
      (s.CheckErrors now).1._errorLogLastWritten = s._errorLogLastWritten ∧
      (s.CheckErrors now).1.SensorInErrorState = true ∧
      ((s.CheckErrors now).1 = s ∨ (s.CheckErrors now).1 = { s with _errorActive := false })) ∧
    (s.monitorCallbacks d ins).length ≤ 1 := by
  refine ⟨fun hc => ?_, monitorCallbacks_length d ins s⟩
  cases hf : s.errorFound
  · rw [CheckErrors_noFault s now hf]
    simp [callbacks, logLines, hc]
  · rw [CheckErrors_latched s now hc hf]
    simp [callbacks, logLines, hc]

/-! ## The deviation reference -/

theorem Dallas_step_accept (d : ℚ) (s : TemperatureSensorHandler) (now : Nat) (tempC : ℚ)
    (h : s.dallasAccepts d now tempC = true) :
    (s.ReadTemperatureSensorDallas d now tempC).1.Temperature = tempC ∧
    (s.ReadTemperatureSensorDallas d now tempC).1._previousTemperature
      = (if s._tempAvailable = true then s.Temperature else tempC) ∧
    (s.ReadTemperatureSensorDallas d now tempC).1._tempAvailable = true := by
  unfold TemperatureSensorHandler.dallasAccepts at h
  simp only [Bool.and_eq_true, decide_eq_true_eq] at h
  rw [Dallas_accept d s now tempC h.1.1 h.1.2 h.2]
  simp

theorem Dallas_step_other (d : ℚ) (s : TemperatureSensorHandler) (now : Nat) (tempC : ℚ)
    (h : s.dallasAccepts d now tempC = false) :
    (s.ReadTemperatureSensorDallas d now tempC).1.Temperature = s.Temperature ∧
    (s.ReadTemperatureSensorDallas d now tempC).1._previousTemperature
      = s._previousTemperature ∧
    (s.ReadTemperatureSensorDallas d now tempC).1._tempAvailable = s._tempAvailable := by
  unfold TemperatureSensorHandler.dallasAccepts at h
  cases hreq : s._dataRequested
  · rw [Dallas_idle d s now tempC hreq]
    simp
  · cases hel : elapsedExceeds now s._previousRequestMillis s._waitTime
    · rw [Dallas_waiting d s now tempC hreq hel]
      simp
    · rcases lt_or_le d tempC with hacc | hrej
      · simp [hreq, hel, hacc] at h
      · rw [Dallas_reject d s now tempC hreq hel hrej]
        simp

theorem getLast?_cons_cons {α : Type} (a b : α) (l : List α) :
    (a :: b :: l).getLast? = (b :: l).getLast? := by
  simp [List.getLast?_cons_cons]

theorem dropLast_getLast?_cons {α : Type} (a b c : α) (l : List α) :
    (a :: b :: c :: l).dropLast.getLast? = (b :: c :: l).dropLast.getLast? := by
  simp [List.dropLast, List.getLast?_cons_cons]

theorem dallasRun_lag_available (d : ℚ) (ins : List (Nat × ℚ)) :
    ∀ s : TemperatureSensorHandler, s._tempAvailable = true →
      (s._previousTemperature :: s.Temperature :: s.acceptedReadings d ins).getLast?
        = some (s.dallasRun d ins).Temperature ∧
      (s._previousTemperature :: s.Temperature :: s.acceptedReadings d ins).dropLast.getLast?
        = some (s.dallasRun d ins)._previousTemperature := by
  induction ins with
  | nil =>
    intro s _
    simp [TemperatureSensorHandler.acceptedReadings, TemperatureSensorHandler.dallasRun]
  | cons i is ih =>
    intro s hav
    unfold TemperatureSensorHandler.acceptedReadings TemperatureSensorHandler.dallasRun
    cases hacc : s.dallasAccepts d i.1 i.2
    · have hs := Dallas_step_other d s i.1 i.2 hacc
      have h := ih _ (hs.2.2.trans hav)
      rw [hs.1, hs.2.1] at h
      simpa using h
    · have hs := Dallas_step_accept d s i.1 i.2 hacc
      have h := ih _ hs.2.2
      rw [hs.1, hs.2.1, hav] at h
      simp only [if_true, List.singleton_append]
      rw [getLast?_cons_cons, dropLast_getLast?_cons]
      simpa using h

/-- Claim C11.  Backend DALLAS, from a state with no accepted reading
(`_tempAvailable` false), after any sequence of invocations of
`ReadTemperatureSensorDallas` in which the readings `r1 .. rn` were accepted,
`n >= 1`: `Temperature` is `rn`, and `_previousTemperature` is `r1` when `n = 1`
and `r(n-1)` when `n >= 2`. -/
theorem deviation_reference_lags_by_one (d : ℚ) (ins : List (Nat × ℚ)) :
    ∀ s : TemperatureSensorHandler, s._tempAvailable = false →
      s.acceptedReadings d ins ≠ [] →
      (s.acceptedReadings d ins).getLast? = some (s.dallasRun d ins).Temperature ∧
      ((s.acceptedReadings d ins).length = 1 →
        (s.acceptedReadings d ins).head? = some (s.dallasRun d ins)._previousTemperature) ∧
      (2 ≤ (s.acceptedReadings d ins).length →
        (s.acceptedReadings d ins).dropLast.getLast?
          = some (s.dallasRun d ins)._previousTemperature) := by
  induction ins with
  | nil =>
    intro s _ hne
    simp [TemperatureSensorHandler.acceptedReadings] at hne
  | cons i is ih =>
    intro s hav hne
    unfold TemperatureSensorHandler.acceptedReadings at hne
    unfold TemperatureSensorHandler.acceptedReadings TemperatureSensorHandler.dallasRun
    cases hacc : s.dallasAccepts d i.1 i.2
    · have hs := Dallas_step_other d s i.1 i.2 hacc
      rw [hacc] at hne
      simp only [Bool.false_eq_true, if_false, List.nil_append] at hne ⊢
      exact ih _ (hs.2.2.trans hav) hne
    · have hs := Dallas_step_accept d s i.1 i.2 hacc
      have h := dallasRun_lag_available d is _ hs.2.2
      rw [hs.1, hs.2.1, hav] at h
      simp only [Bool.false_eq_true, if_false] at h
      simp only [if_true, List.singleton_append]
      cases hrest : TemperatureSensorHandler.acceptedReadings d
          (s.ReadTemperatureSensorDallas d i.1 i.2).1 is with
      | nil =>
        rw [hrest] at h
        simpa using h
      | cons r rs =>
        rw [hrest] at h
        rw [getLast?_cons_cons] at h
        rw [dropLast_getLast?_cons] at h
        refine ⟨h.1, ?_, fun _ => h.2⟩
        intro hlen
        simp at hlen

/-! ## The TSIC backend and the fault monitor -/

theorem ReadTemperatureSensorTSIC_bad (s : TemperatureSensorHandler) (now : Nat) (v : ℚ) :
    (s.ReadTemperatureSensorTSIC now v).1._sensorBadReading
      = (elapsedExceeds now s._previousRequestMillis s._waitTime || s._sensorBadReading) := by
  unfold TemperatureSensorHandler.ReadTemperatureSensorTSIC
  cases he : elapsedExceeds now s._previousRequestMillis s._waitTime <;> simp

theorem RefreshSensorData_bad (d : ℚ) (s : TemperatureSensorHandler) (now : Nat)
    (tempC : ℚ) :
    (s.RefreshSensorData d now tempC).1._sensorBadReading
      = (s.readSensor d now tempC).1._sensorBadReading := by
  have h2 := CheckErrors_limits (s.readSensor d now tempC).1 now
  have h3 := publishNewData_limits ((s.readSensor d now tempC).1.CheckErrors now).1 now
  unfold TemperatureSensorHandler.RefreshSensorData
  simp only []
  exact h3.2.2.1.trans h2.2.2.1

theorem TSIC_step_bad (d : ℚ) (s : TemperatureSensorHandler) (i : Nat × ℚ)
    (hT : s._sensorType = SensorType.TSIC_306) (hb : s._sensorBadReading = true) :
    s.faultFires d i = true ∧
    (s.RefreshSensorData d i.1 i.2).1._sensorType = SensorType.TSIC_306 ∧
    (s.RefreshSensorData d i.1 i.2).1._sensorBadReading = true := by
  have hr : (s.readSensor d i.1 i.2).1._sensorBadReading = true := by
    rw [readSensor_tsic d s i.1 i.2 hT, ReadTemperatureSensorTSIC_bad, hb]
    simp
  refine ⟨?_, (RefreshSensorData_limits d s i.1 i.2).2.2.trans hT, ?_⟩
  · unfold TemperatureSensorHandler.faultFires
    rw [errorFound_eq, hr]
    simp
  · rw [RefreshSensorData_bad, hr]

theorem RefreshSensorData_keeps_tentative (d : ℚ) (s : TemperatureSensorHandler)
    (i : Nat × ℚ) (ha : s._errorActive = true) (hf : s.faultFires d i = true) :
    (s.RefreshSensorData d i.1 i.2).1._errorActive = true := by
  have hff := readSensor_fault_fields d s i.1 i.2
  have hp := publishNewData_fault_fields ((s.readSensor d i.1 i.2).1.CheckErrors i.1).1 i.1
  unfold TemperatureSensorHandler.faultFires at hf
  unfold TemperatureSensorHandler.RefreshSensorData
  simp only []
  rw [hp.2.1]
  cases hc : (s.readSensor d i.1 i.2).1.SensorInErrorState
  · exact (CheckErrors_tentative_of_fault _ i.1 hc hf).1
  · rw [CheckErrors_latched _ i.1 hc hf]
    exact hff.2.1.trans ha

theorem TSIC_run_bad (d : ℚ) (ins : List (Nat × ℚ)) :
    ∀ s : TemperatureSensorHandler, s._sensorType = SensorType.TSIC_306 →
      s._sensorBadReading = true →
      (s.run d ins)._sensorBadReading = true ∧ s.faultPersists d ins = true ∧
      (s._errorActive = true → (s.run d ins)._errorActive = true) := by
  induction ins with
  | nil =>
    intro s _ hb
    exact ⟨hb, rfl, fun ha => ha⟩
  | cons i is ih =>
    intro s hT hb
    have hs := TSIC_step_bad d s i hT hb
    have h := ih _ hs.2.1 hs.2.2
    unfold TemperatureSensorHandler.run TemperatureSensorHandler.faultPersists
    refine ⟨h.1, ?_, fun ha => h.2.2 (RefreshSensorData_keeps_tentative d s i ha hs.1)⟩
    rw [hs.1, h.2.1]
    rfl

/-- Claim C19.  Backend TSIC.  A service cycle in which `ReadTemperatureSensorTSIC`
ticks ends with `_sensorBadReading` true and, unless the fault is confirmed, with
`_errorActive` true.  From a state with `_sensorBadReading` true, for every run of
service cycles and all sensor values: the flag is true after the run and after any
further invocation of `ReadTemperatureSensorTSIC`, a fault condition fires in every
cycle of the run, `_errorActive` once set stays set, and from a tentative state
(with `_maxErrorActiveTime` a non-negative `int`) the confirmed flag is set after
the run if and only if some cycle had
`(now - _errorStateDetectedMillis) mod 2^32 > _maxErrorActiveTime`. -/
theorem TSIC_fault_unavoidable (d : ℚ) (s0 s : TemperatureSensorHandler) (i0 : Nat × ℚ)
    (ins : List (Nat × ℚ)) (now : Nat) (v : ℚ) :
    (s0._sensorType = SensorType.TSIC_306 →
      elapsedExceeds i0.1 s0._previousRequestMillis s0._waitTime = true →
      (s0.RefreshSensorData d i0.1 i0.2).1._sensorType = SensorType.TSIC_306 ∧
      (s0.RefreshSensorData d i0.1 i0.2).1._sensorBadReading = true ∧
      ((s0.RefreshSensorData d i0.1 i0.2).1.SensorInErrorState = false →
        (s0.RefreshSensorData d i0.1 i0.2).1._errorActive = true)) ∧
    (s._sensorType = SensorType.TSIC_306 → s._sensorBadReading = true →
      (s.run d ins)._sensorBadReading = true ∧
      ((s.run d ins).ReadTemperatureSensorTSIC now v).1._sensorBadReading = true ∧
      s.faultPersists d ins = true ∧
      (s._errorActive = true → (s.run d ins)._errorActive = true) ∧
      (s._errorActive = true → s.SensorInErrorState = false →
        0 ≤ s._maxErrorActiveTime → s._maxErrorActiveTime < 2147483648 →
        ((s.run d ins).SensorInErrorState = true ↔
          ∃ i ∈ ins, s._maxErrorActiveTime
            < ((i.1 : Int) - (s._errorStateDetectedMillis : Int)) % 4294967296))) := by
  constructor
  · intro hT htick
    have hr : (s0.readSensor d i0.1 i0.2).1._sensorBadReading = true := by
      rw [readSensor_tsic d s0 i0.1 i0.2 hT, ReadTemperatureSensorTSIC_bad, htick]
      simp
    have hf : (s0.readSensor d i0.1 i0.2).1.errorFound = true := by
      rw [errorFound_eq, hr]
      simp
    have hp := publishNewData_fault_fields
      ((s0.readSensor d i0.1 i0.2).1.CheckErrors i0.1).1 i0.1
    refine ⟨(RefreshSensorData_limits d s0 i0.1 i0.2).2.2.trans hT, ?_, ?_⟩
    · rw [RefreshSensorData_bad, hr]
    · unfold TemperatureSensorHandler.RefreshSensorData
      simp only []
      rw [hp.1, hp.2.1]
      intro hc
      cases hc1 : (s0.readSensor d i0.1 i0.2).1.SensorInErrorState
      · exact (CheckErrors_tentative_of_fault _ i0.1 hc1 hf).1
      · rw [CheckErrors_keeps_true _ i0.1 hc1] at hc
        exact absurd hc (by simp)
  · intro hT hb
    have h := TSIC_run_bad d ins s hT hb
    refine ⟨h.1, ?_, h.2.1, h.2.2, fun ha hc h0 h1 => run_confirms_iff d ins s ha hc h0 h1 h.2.1⟩
    rw [ReadTemperatureSensorTSIC_bad, h.1]
    simp

/-! ## Rounding -/

theorem roundTo_zero (p : Nat) (emin emax : Int) : roundTo p emin emax 0 = Dbl.fin 0 := by
  simp [roundTo]

theorem replicate_fifteen {α : Type} (x : α) :
    List.replicate 15 x = [x, x, x, x, x, x, x, x, x, x, x, x, x, x, x] := rfl

theorem range_fifteen :
    List.range 15 = [0, 1, 2, 3, 4, 5, 6, 7, 8, 9, 10, 11, 12, 13, 14] := by decide

theorem u32sub_zero (a : Nat) (h : a < 4294967296) : u32sub a 0 = a := by
  unfold u32sub
  omega

theorem round64_zero : round64 0 = Dbl.fin 0 := roundTo_zero _ _ _

theorem round32_zero : round32 0 = Dbl.fin 0 := roundTo_zero _ _ _

theorem CalculateMovingAverage_first (s : TemperatureSensorHandler) (now : Nat)
    (hinit : s.movingAverageInitialized = false) (hidx : s.valueIndex = 1)
    (h0 : 0 < now) (h1 : now < 4294967296) :
    (s.CalculateMovingAverage now).tempValues = List.replicate 15 s.Temperature ∧
    (s.CalculateMovingAverage now).timeValues = (List.replicate 15 0).set 1 now ∧
    (s.CalculateMovingAverage now).tempChangeRates = List.replicate 15 (Dbl.fin 0) ∧
    (s.CalculateMovingAverage now).ChangeRate = Dbl.fin 0 ∧
    (s.CalculateMovingAverage now).movingAverageInitialized = true := by
  have hn : now ≠ 0 := by omega
  unfold TemperatureSensorHandler.CalculateMovingAverage
  simp [hinit, hidx, numValues, arrSet, arrGet, replicate_fifteen, range_fifteen,
    u32sub_zero now h1, Dbl.sub, Dbl.divNat, Dbl.mulPos, Dbl.divPos, Dbl.add, Dbl.toFloat,
    round64_zero, round32_zero, hn]

/-- Claim C12.  From a never-initialized smoothing engine (`movingAverageInitialized`
false, cursor at its initial value 1), with `Temperature` the first accepted reading
`T0` and a non-zero 32-bit clock value, the first invocation of
`CalculateMovingAverage` leaves `T0` in all 15 temperature slots, zero in all time
slots but the one it writes, zero in all rate slots, and `ChangeRate` equal to 0. -/
theorem first_invocation_backfills (s : TemperatureSensorHandler) (now : Nat)
    (hinit : s.movingAverageInitialized = false) (hidx : s.valueIndex = 1)
    (h0 : 0 < now) (h1 : now < 4294967296) :
    (s.CalculateMovingAverage now).tempValues = List.replicate 15 s.Temperature ∧
    (s.CalculateMovingAverage now).timeValues = (List.replicate 15 0).set 1 now ∧
    (s.CalculateMovingAverage now).tempChangeRates = List.replicate 15 (Dbl.fin 0) ∧
    (s.CalculateMovingAverage now).ChangeRate = Dbl.fin 0 ∧
    (s.CalculateMovingAverage now).movingAverageInitialized = true :=
  CalculateMovingAverage_first s now hinit hidx h0 h1

/-! ## The sign of `ChangeRate` -/

theorem log2Fuel_spec (fuel : Nat) :
    ∀ n : Nat, 0 < n → n ≤ fuel →
      2 ^ log2Fuel fuel n ≤ n ∧ n < 2 ^ (log2Fuel fuel n + 1) := by
  induction fuel with
  | zero =>
    intro n h0 h1
    omega
  | succ fuel ih =>
    intro n h0 h1
    unfold log2Fuel
    by_cases h2 : n < 2
    · rw [if_pos h2]
      have : n = 1 := by omega
      subst this
      decide
    · rw [if_neg h2]
      have h := ih (n / 2) (by omega) (by omega)
      rw [pow_succ, pow_succ]
      constructor <;> omega

theorem natLog2_spec (n : Nat) (h : 0 < n) :
    2 ^ natLog2 n ≤ n ∧ n < 2 ^ (natLog2 n + 1) :=
  log2Fuel_spec n n h (le_refl n)

theorem ilog2_lt (x : ℚ) (hx : 0 < x) : x < (2 : ℚ) ^ (ilog2 x + 1) := by
  unfold ilog2
  simp only []
  split
  · have hnum : 0 < x.num := Rat.num_pos.mpr hx
    have hn := natLog2_spec x.num.natAbs (by omega)
    have hd := natLog2_spec x.den x.den_pos
    have hnq : (x.num : ℚ) < (2 : ℚ) ^ (natLog2 x.num.natAbs + 1) := by
      have h1 : ((x.num.natAbs : Nat) : ℚ) < ((2 ^ (natLog2 x.num.natAbs + 1) : Nat) : ℚ) :=
        Nat.cast_lt.mpr hn.2
      have h2 : ((x.num.natAbs : Nat) : ℚ) = (x.num : ℚ) := by
        have : ((x.num.natAbs : Nat) : Int) = x.num := Int.natAbs_of_nonneg (le_of_lt hnum)
        rw [← Int.cast_natCast, this]
      rw [h2] at h1
      exact_mod_cast h1
    have hdq : (2 : ℚ) ^ natLog2 x.den ≤ (x.den : ℚ) := by
      have h1 : ((2 ^ natLog2 x.den : Nat) : ℚ) ≤ ((x.den : Nat) : ℚ) := Nat.cast_le.mpr hd.1
      exact_mod_cast h1
    have hdpos : (0 : ℚ) < (x.den : ℚ) := Nat.cast_pos.mpr x.den_pos
    have hexp : ((natLog2 x.num.natAbs : Int) - (natLog2 x.den : Int) + 1)
        = ((natLog2 x.num.natAbs + 1 : Nat) : Int) - (natLog2 x.den : Int) := by
      push_cast
      ring
    rw [hexp, zpow_sub₀ (by norm_num : (2 : ℚ) ≠ 0), zpow_natCast, zpow_natCast]
    calc x = (x.num : ℚ) / (x.den : ℚ) := (Rat.num_div_den x).symm
      _ < (2 : ℚ) ^ (natLog2 x.num.natAbs + 1) / (x.den : ℚ) :=
          div_lt_div_of_pos_right hnq hdpos
      _ ≤ (2 : ℚ) ^ (natLog2 x.num.natAbs + 1) / (2 : ℚ) ^ natLog2 x.den :=
          div_le_div_of_nonneg_left (by positivity) (by positivity) hdq
  · rename_i h
    rw [not_le] at h
    have : (natLog2 x.num.natAbs : Int) - (natLog2 x.den : Int) - 1 + 1
        = (natLog2 x.num.natAbs : Int) - (natLog2 x.den : Int) := by ring
    rw [this]
    exact h

theorem rounding_examples :
    round32 (1 / 10) = Dbl.fin (13421773 / 2 ^ 27) ∧
    round64 (1 / 10) = Dbl.fin (3602879701896397 / 2 ^ 55) ∧
    round32 (5 + 1 / 2 ^ 23) = Dbl.fin 5 ∧
    round32 (5 + 3 / 2 ^ 22) = Dbl.fin (5 + 1 / 2 ^ 20) ∧
    round32 (1 / 2 ^ 150) = Dbl.fin 0 ∧
    round32 (3 / 2 ^ 150) = Dbl.fin (1 / 2 ^ 148) ∧
    round32 (-(1 / 10 ^ 7)) = Dbl.fin (-28147498 / 2 ^ 48) ∧
    round32 ((2 ^ 24 - 1) * 2 ^ 104) = Dbl.fin ((2 ^ 24 - 1) * 2 ^ 104) ∧
    round32 ((2 ^ 24 - 1 / 2) * 2 ^ 104) = Dbl.pinf ∧
    round32 (-(2 ^ 128)) = Dbl.ninf := by
  decide!

theorem deviation_reference_lags_by_one_witness :
    dallasStart.acceptedReadings disconnectedC mixedPolls = [21, 23] ∧
    (dallasStart.dallasRun disconnectedC mixedPolls).Temperature = 23 ∧
    (dallasStart.dallasRun disconnectedC mixedPolls)._previousTemperature = 21 ∧
    (dallasStart.dallasRun disconnectedC [(1000, 20), (2000, 20)])._previousTemperature = 20 :=
  have h := deviation_reference_lags_by_one disconnectedC mixedPolls dallasStart (by decide!)
    (by decide!)
  have h1 := deviation_reference_lags_by_one disconnectedC [(1000, 20), (2000, 20)]
    dallasStart (by decide!) (by decide!)
  ⟨by decide!, (Option.some.inj (h.1.symm.trans (by decide!))),
    (Option.some.inj ((h.2.2 (by decide!)).symm.trans (by decide!))),
    (Option.some.inj ((h1.2.1 (by decide!)).symm.trans (by decide!)))⟩

theorem first_invocation_backfills_witness :
    (armedState.ReadTemperatureSensorDallas disconnectedC 2000 20).1.Temperature = 20 ∧
    ((armedState.ReadTemperatureSensorDallas disconnectedC 2000 20).1.CalculateMovingAverage
      2000).tempValues = List.replicate 15 20 ∧
    ((armedState.ReadTemperatureSensorDallas disconnectedC 2000 20).1.CalculateMovingAverage
      2000).ChangeRate = Dbl.fin 0 :=
  have h := first_invocation_backfills
    (armedState.ReadTemperatureSensorDallas disconnectedC 2000 20).1 2000 (by decide!)
    (by decide!) (by decide) (by decide)
  ⟨by decide!, h.1.trans (by decide!), h.2.2.2.1⟩

/-- Claim C4 fails.  The `float` readings `3/2^23` and `5 + 1/2^21` are accepted one
after the other, with the constructor's limits; their exact difference `5 + 1/2^23`
is greater than `_maxDeviationBetweenReadings = 5`, but the `float` subtraction
rounds it to 5, so no fault condition fires and `_errorActive` is false at the end
of the cycle that accepts the second reading. -/
theorem exact_deviation_above_limit_is_not_detected :
    beforeNearFive._sensorType = SensorType.DALLAS ∧
    beforeNearFive._tempAvailable = true ∧
    beforeNearFive.Temperature = 3 / 2 ^ 23 ∧
    beforeNearFive.acceptsReading disconnectedC 4000 (5 + 1 / 2 ^ 21) = true ∧
    beforeNearFive._maxDeviationBetweenReadings = 5 ∧
    fabs ((5 + 1 / 2 ^ 21) - beforeNearFive.Temperature)
      > beforeNearFive._maxDeviationBetweenReadings ∧
    beforeNearFive.SensorInErrorState = false ∧
    f32sub (5 + 1 / 2 ^ 21) beforeNearFive.Temperature = Dbl.fin 5 ∧
    (beforeNearFive.RefreshSensorData disconnectedC 4000 (5 + 1 / 2 ^ 21)).1.Temperature
      = 5 + 1 / 2 ^ 21 ∧
    (beforeNearFive.RefreshSensorData disconnectedC 4000 (5 + 1 / 2 ^ 21)).1._errorActive
      = false := by
  decide!

/-- Claim C16 fails.  With `Temperature = 5` and `_previousTemperature =
-28147498/2^48` (both `float` values, accepted one after the other) the exact
difference is greater than `_maxDeviationBetweenReadings = 5`, but the `float`
subtraction rounds it to 5: no condition fires and `errorFound` is false. -/
theorem exact_deviation_does_not_fire :
    afterFive.Temperature = 5 ∧
    afterFive._previousTemperature = -28147498 / 2 ^ 48 ∧
    afterFive._maxDeviationBetweenReadings = 5 ∧
    fabs (afterFive.Temperature - afterFive._previousTemperature)
      > afterFive._maxDeviationBetweenReadings ∧
    f32sub afterFive.Temperature afterFive._previousTemperature = Dbl.fin 5 ∧
    afterFive.errorFound = false := by
  decide!

/-- Claim C14 fails.  From the constructed state, after 15 invocations of
`CalculateMovingAverage` the cursor is 1, not 0: the 16th reading, 35, is written
into slot 1, and slot 0 still holds the 15th reading, 34. -/
theorem cursor_is_one_after_fifteen :
    (risingReadings.take 15).length = 15 ∧
    (TemperatureSensorHandler.ctor.feedAll
      (atCadence 1000 1000 (risingReadings.take 15))).valueIndex = 1 ∧
    ¬ (TemperatureSensorHandler.ctor.feedAll
      (atCadence 1000 1000 (risingReadings.take 15))).valueIndex = 0 ∧
    arrGet 0 (TemperatureSensorHandler.ctor.feedAll
      (atCadence 1000 1000 risingReadings)).tempValues 1 = 35 ∧
    arrGet 0 (TemperatureSensorHandler.ctor.feedAll
      (atCadence 1000 1000 risingReadings)).tempValues 0 = 34 := by
  decide!

theorem cursor_returns_to_start_after_fifteen_witness :
    (TemperatureSensorHandler.ctor.feedAll
      (atCadence 1000 1000 (risingReadings.take 14))).valueIndex = 0 ∧
    (TemperatureSensorHandler.ctor.feedAll
      (atCadence 1000 1000 (risingReadings.take 15))).valueIndex = 1 :=
  ⟨((cursor_returns_to_start_after_fifteen TemperatureSensorHandler.ctor
      (atCadence 1000 1000 (risingReadings.take 14)) (34, 15000) (by decide!) (by decide!)).1
      (by decide!)).1,
    ((cursor_returns_to_start_after_fifteen TemperatureSensorHandler.ctor
      (atCadence 1000 1000 (risingReadings.take 15)) (35, 16000) (by decide!) (by decide!)).2
      (by decide!)).1⟩

theorem fault_predicate_witness :
    dallasStart.Temperature ≤ dallasStart._lLim ∧
    dallasStart.errorFound = false ∧
    (dallasStart.SetSensorParams (-10) 0).errorFound = true :=
  have h := fault_predicate dallasStart 1000
  have h2 := fault_predicate (dallasStart.SetSensorParams (-10) 0) 1000
  ⟨by decide!,
    h.2.1 (by decide!) (by decide!) (by decide!) (by decide!) (by decide!)
      (by decide!),
    h2.2.2.1 (by decide!)⟩

/-- Claim C17 fails.  After a cycle that read the disconnect value, the next
request is pending since 2000 ms; the cycle at 2100 ms collects nothing (the wait
has not elapsed, no value is read), yet `_sensorBadReading` is still true in its
fault evaluation, and a fault condition fires. -/
theorem bad_reading_fires_without_a_read :
    afterInvalidRead._sensorType = SensorType.DALLAS ∧
    afterInvalidRead.dallasCollects 2100 = false ∧
    reads (afterInvalidRead.readSensor disconnectedC 2100 20).2 = [] ∧
    (afterInvalidRead.readSensor disconnectedC 2100 20).1._sensorBadReading = true ∧
    (afterInvalidRead.readSensor disconnectedC 2100 20).1.outOfLimits = false ∧
    (afterInvalidRead.readSensor disconnectedC 2100 20).1.tooBigDeviation = false ∧
    (afterInvalidRead.readSensor disconnectedC 2100 20).1._sensorAvailable = true ∧
    (afterInvalidRead.readSensor disconnectedC 2100 20).1.errorFound = true := by
  decide!

theorem bad_reading_flag_persists_witness :
    afterInvalidRead._sensorBadReading = true ∧
    (afterInvalidRead.RefreshSensorData disconnectedC 2100 20).1._sensorBadReading = true ∧
    armedState._sensorBadReading = false ∧
    (armedState.RefreshSensorData disconnectedC 1200 20).1._sensorBadReading = false :=
  have h := bad_reading_flag_persists disconnectedC afterInvalidRead 2100 20 (by decide!)
    (by decide!)
  have h2 := bad_reading_flag_persists disconnectedC armedState 1200 20 (by decide!)
    (by decide!)
  ⟨by decide!, h.2.2.1.trans (by decide!), by decide!, h2.2.2.1.trans (by decide!)⟩

theorem history_indices_in_range_witness :
    0 ≤ (TemperatureSensorHandler.ctor.feedAll (atCadence 1000 1000 risingReadings)).valueIndex ∧
    (TemperatureSensorHandler.ctor.feedAll (atCadence 1000 1000 risingReadings)).valueIndex
      < 15 ∧
    (TemperatureSensorHandler.ctor.feedAll
      (atCadence 1000 1000 risingReadings)).tempValues.length = 15 :=
  have h := history_indices_in_range TemperatureSensorHandler.ctor
    (atCadence 1000 1000 risingReadings) (by decide!) (by decide!) (by decide!) (by decide!)
  ⟨h.1, h.2.1, h.2.2.2.2.1⟩

theorem TSIC_fault_unavoidable_witness :
    tsicAfterTick.Temperature = 25 ∧
    tsicAfterTick._sensorBadReading = true ∧
    tsicAfterTick._errorActive = true ∧
    tsicAfterTick.faultPersists disconnectedC tsicCycles = true ∧
    (tsicAfterTick.run disconnectedC tsicCycles).SensorInErrorState = true :=
  have h0 := (TSIC_fault_unavoidable disconnectedC tsicStart tsicAfterTick (401, 25)
    tsicCycles 7000 25).1 (by decide!) (by decide!)
  have h := (TSIC_fault_unavoidable disconnectedC tsicStart tsicAfterTick (401, 25)
    tsicCycles 7000 25).2 (by decide!) h0.2.1
  ⟨by decide!, h0.2.1, h0.2.2 (by decide!), h.2.2.1,
    (h.2.2.2.2 (by decide!) (by decide!) (by decide!) (by decide!)).mpr
      ⟨(6000, 25), by decide!, by decide!⟩⟩

theorem monitor_quiescent_once_confirmed_witness :
    confirmedState.SensorInErrorState = true ∧
    (confirmedState.CheckErrors 15000).2 = [] ∧
    (tentativeState.monitorCallbacks disconnectedC
      (persistCycles ++ [sixthCycle, (15000, 20), (16000, 20)])).length ≤ 1 :=
  have h := monitor_quiescent_once_confirmed disconnectedC confirmedState 15000
    (persistCycles ++ [sixthCycle, (15000, 20), (16000, 20)])
  have h2 := monitor_quiescent_once_confirmed disconnectedC tentativeState 15000
    (persistCycles ++ [sixthCycle, (15000, 20), (16000, 20)])
  ⟨by decide!, (h.1 (by decide!)).1, h2.2⟩
